import Mathlib

/-!
# dynomite_exporter

A shallow embedding of the collector of `pkg/exporter` (files `types.go` and
`exporter.go`) and of the defaults of `cmd/dynomite_exporter/main.go`.

* Go `int`, `int64` and `time.Duration` values are integers (`Int`); the code performs
  no arithmetic on them. `int` is taken to be 64 bits wide, as on the platforms the
  exporter is built for.
* A `float64` that the code obtains by converting an `int` is held as the integer it is
  equal to; the conversion `float64(·)` rounds to 53 significant bits, to nearest, ties to
  even.
* A Go `error` is its message; `nil` is `none`.
* The channel a method sends on is the list of the values sent so far, oldest first.
* A panic is the `error` side of `Except`.
* The HTTP client and the JSON decoder belong to the Go standard library; they are
  taken as parameters (`Upstream`). `http.Get` receives a URL and nothing else; the time
  a call takes is recorded beside its result and no statement of the package reads it.
-/

namespace DynomiteExporter

/-! ## `types.go` -/

/-- The nested record `dyn_o_mite` of `DynomiteMetrics`. -/
structure DynOMiteStats where
  ClientEOF : Int := 0
  ClientErr : Int := 0
  ClientConnections : Int := 0
  ClientReadRequests : Int := 0
  ClientWriteRequests : Int := 0
  ClientDroppedRequests : Int := 0
  ClientNonQuorumWResponses : Int := 0
  ClientNonQuorumRResponses : Int := 0
  ServerEjects : Int := 0
  DnodeClientEOF : Int := 0
  DnodeClientErr : Int := 0
  DnodeClientConnections : Int := 0
  DnodeClientInQueue : Int := 0
  DnodeClientInQueueBytes : Int := 0
  DnodeClientOutQueue : Int := 0
  DnodeClientOutQueueBytes : Int := 0
  PeerDroppedRequests : Int := 0
  PeerTimedoutRequests : Int := 0
  RemotePeerDroppedRequests : Int := 0
  RemotePeerTimedoutRequests : Int := 0
  RemotePeerFailoverRequests : Int := 0
  PeerEOF : Int := 0
  PeerErr : Int := 0
  PeerTimedout : Int := 0
  RemotePeerTimedout : Int := 0
  PeerConnections : Int := 0
  PeerForwardError : Int := 0
  PeerRequests : Int := 0
  PeerRequestBytes : Int := 0
  PeerResponses : Int := 0
  PeerResponseBytes : Int := 0
  PeerEjectedAt : Int := 0
  PeerEjects : Int := 0
  PeerInQueue : Int := 0
  RemotePeerInQueue : Int := 0
  PeerInQueueBytes : Int := 0
  RemotePeerInQueueBytes : Int := 0
  PeerOutQueue : Int := 0
  RemotePeerOutQueue : Int := 0
  PeerOutQueueBytes : Int := 0
  RemotePeerOutQueueBytes : Int := 0
  PeerMismatchRequests : Int := 0
  ForwardError : Int := 0
  Fragments : Int := 0
  StatsCount : Int := 0

/-- The decoded status document (`type DynomiteMetrics struct`). The defaults are the Go
zero values, so `{}` is the value of `var metrics DynomiteMetrics`. -/
structure DynomiteMetrics where
  Service : String := ""
  Source : String := ""
  Version : String := ""
  Uptime : Int := 0
  Timestamp : Int := 0
  Rack : String := ""
  Dc : String := ""
  LatencyMax : Int := 0
  Latency999Th : Int := 0
  Latency99Th : Int := 0
  Latency95Th : Int := 0
  LatencyMean : Int := 0
  PayloadSizeMax : Int := 0
  PayloadSize999Th : Int := 0
  PayloadSize99Th : Int := 0
  PayloadSize95Th : Int := 0
  PayloadSizeMean : Int := 0
  AverageCrossRegionRtt : Int := 0
  Nine9CrossRegionRtt : Int := 0
  AverageCrossZoneLatency : Int := 0
  Nine9CrossZoneLatency : Int := 0
  AverageServerLatency : Int := 0
  Nine9ServerLatency : Int := 0
  AverageCrossRegionQueueWait : Int := 0
  Nine9CrossRegionQueueWait : Int := 0
  AverageCrossZoneQueueWait : Int := 0
  Nine9CrossZoneQueueWait : Int := 0
  AverageServerQueueWait : Int := 0
  Nine9ServerQueueWait : Int := 0
  ClientOutQueue99 : Int := 0
  ServerInQueue99 : Int := 0
  ServerOutQueue99 : Int := 0
  DnodeClientOutQueue99 : Int := 0
  PeerInQueue99 : Int := 0
  PeerOutQueue99 : Int := 0
  RemotePeerOutQueue99 : Int := 0
  RemotePeerInQueue99 : Int := 0
  AllocMsgs : Int := 0
  FreeMsgs : Int := 0
  AllocMbufs : Int := 0
  FreeMbufs : Int := 0
  DynMemory : Int := 0
  DynOMite : DynOMiteStats := {}

/-! ## The Prometheus client, as far as the exporter uses it -/

/-- A Go `error`, held as its message. -/
abbrev GoError := String

/-- The message of a panic. -/
abbrev Panic := String

/-- A `time.Duration`: a number of nanoseconds. -/
abbrev Duration := Int

/-- A `float64` sample value. Every value the exporter sends is the conversion of an `int`,
hence a whole number; it is held as the integer it is equal to. -/
structure Float64 where
  ofInt ::
  int : Int
  deriving DecidableEq, Repr

/-- The number of low bits of `n` that do not fit in the 53 bits of a `float64`
significand: how many times `n` is halved before it is below `2^53`. The first argument
bounds the number of halvings; `n` itself is always enough. -/
def excessBits : Nat → Nat → Nat
  | 0, _ => 0
  | fuel + 1, n => if n < 2 ^ 53 then 0 else excessBits fuel (n / 2) + 1

/-- The natural number `n` rounded to 53 significant bits, to nearest, ties to even: the
value of the `float64` nearest to `n`. -/
def roundToEven53 (n : Nat) : Nat :=
  let shift := excessBits n n
  let q := n / 2 ^ shift
  let rem := n % 2 ^ shift
  if 2 * rem > 2 ^ shift ∨ (2 * rem = 2 ^ shift ∧ q % 2 = 1) then (q + 1) * 2 ^ shift
  else q * 2 ^ shift

/-- The Go conversion `float64(i)` of an `int`: the nearest `float64`, ties to even. It is
`i` itself when the magnitude of `i` is at most `2^53`, and for instance
`9007199254740992` for `i = 9007199254740993`. -/
def float64 (i : Int) : Float64 := Float64.ofInt (i.sign * (roundToEven53 i.natAbs : Nat))

/-- The kinds of a constant metric (`prometheus.ValueType`). -/
inductive ValueType where
  | CounterValue
  | GaugeValue
  | UntypedValue
  deriving DecidableEq, Repr

/-- A metric definition (`prometheus.Desc`): the fully qualified name, the help text, the
names of the variable labels in order, and the error that `NewDesc` recorded, if any. -/
structure Desc where
  fqName : String
  help : String
  variableLabels : List String
  err : Option GoError
  deriving DecidableEq, Repr

/-- A sample (`prometheus.Metric` built by `MustNewConstMetric`). -/
structure Metric where
  desc : Desc
  valueType : ValueType
  value : Float64
  labelValues : List String
  deriving DecidableEq, Repr

/-- Library function `prometheus.BuildFQName`: the non-empty parts joined by an
underscore; an empty name gives the empty string. -/
def BuildFQName (ns subsystem name : String) : String :=
  if name = "" then ""
  else if ns ≠ "" ∧ subsystem ≠ "" then ns ++ "_" ++ subsystem ++ "_" ++ name
  else if ns ≠ "" then ns ++ "_" ++ name
  else if subsystem ≠ "" then subsystem ++ "_" ++ name
  else name

/-- A metric name is valid when it matches `[a-zA-Z_:][a-zA-Z0-9_:]*`. -/
def isValidMetricName (s : String) : Bool :=
  match s.data with
  | [] => false
  | c :: cs =>
    (c.isAlpha || c == '_' || c == ':') && cs.all (fun d => d.isAlphanum || d == '_' || d == ':')

/-- A label name is accepted by `NewDesc` when it matches `[a-zA-Z_][a-zA-Z0-9_]*` and does
not start with two underscores. -/
def checkLabelName (s : String) : Bool :=
  match s.data with
  | [] => false
  | c :: cs =>
    (c.isAlpha || c == '_') && cs.all (fun d => d.isAlphanum || d == '_')
      && !(c == '_' && cs.head? == some '_')

/-- Library function `prometheus.NewDesc` with no constant labels: the definition, with
the error that the validation of the names records (an invalid metric name, an invalid
label name, or a label name given twice). -/
def NewDesc (fqName help : String) (variableLabels : List String) : Desc :=
  { fqName := fqName
    help := help
    variableLabels := variableLabels
    err :=
      if !isValidMetricName fqName then some "not a valid metric name"
      else if !variableLabels.all checkLabelName then some "not a valid label name"
      else if !decide variableLabels.Nodup then some "duplicate label names"
      else none }

/-- Library function `prometheus.NewConstMetric`: fails when the definition carries an
error or when the number of label values is not the number of variable labels of the
definition. -/
def NewConstMetric (desc : Desc) (valueType : ValueType) (value : Float64)
    (labelValues : List String) : Except GoError Metric :=
  match desc.err with
  | some err => .error err
  | none =>
    if labelValues.length ≠ desc.variableLabels.length then
      .error "inconsistent label cardinality"
    else
      .ok { desc := desc, valueType := valueType, value := value, labelValues := labelValues }

/-- Library function `prometheus.MustNewConstMetric`: `NewConstMetric`, panicking on its
error. -/
def MustNewConstMetric (desc : Desc) (valueType : ValueType) (value : Float64)
    (labelValues : List String) : Except Panic Metric :=
  NewConstMetric desc valueType value labelValues

/-! ## `exporter.go` -/

/-- The constant `Namespace`. -/
def Namespace : String := "dynomite"

/-- A go-kit logger, known by its identity only. -/
structure Logger where
  id : Nat
  deriving DecidableEq, Repr

/-- One record handed to a logger: the logger, the level and the key/value list. -/
structure LogRecord where
  logger : Logger
  level : String
  keyvals : List String
  deriving DecidableEq, Repr

/-- The collector (`type Exporter struct`). -/
structure Exporter where
  address : String
  timeout : Duration
  logger : Logger
  up : Desc
  uptime : Desc
  latency : Desc
  payload_size : Desc
  cross_region_rtt : Desc
  cross_zone_latency : Desc
  server_latency : Desc
  server_queue_wait : Desc
  cross_region_queue_wait : Desc
  client_out_queue : Desc
  server_in_queue : Desc
  server_out_queue : Desc
  dnode_client_out_queue : Desc
  peer_in_queue : Desc
  peer_out_queue : Desc
  remote_peer_out_queue : Desc
  remote_peer_in_queue : Desc
  alloc_msgs : Desc
  free_msgs : Desc
  alloc_mbufs : Desc
  free_mbufs : Desc
  dyn_memory : Desc
  deriving DecidableEq, Repr

/-- The function `New` returns an initialized exporter. -/
def New (server : String) (timeout : Duration) (logger : Logger) : Exporter :=
  { address := server
    timeout := timeout
    logger := logger
    up := NewDesc (BuildFQName Namespace "" "up")
      "Could the qynomite server be reached." []
    uptime := NewDesc (BuildFQName Namespace "" "uptime_seconds")
      "Number of seconds since the server started." ["rack"]
    latency := NewDesc (BuildFQName Namespace "" "latency")
      "Server latency." ["rack", "type"]
    payload_size := NewDesc (BuildFQName Namespace "" "payload_size")
      "Payload size." ["rack", "type"]
    cross_region_rtt := NewDesc (BuildFQName Namespace "" "cross_region_rtt")
      "Cross region RTT." ["rack", "type"]
    cross_zone_latency := NewDesc (BuildFQName Namespace "" "cross_zone_latency")
      "Cross region latency." ["rack", "type"]
    server_latency := NewDesc (BuildFQName Namespace "" "server_latency")
      "Server latency." ["rack", "type"]
    server_queue_wait := NewDesc (BuildFQName Namespace "" "server_queue_wait")
      "Server queue wait." ["rack", "type"]
    cross_region_queue_wait := NewDesc (BuildFQName Namespace "" "cross_region_queue_wait")
      "Cross region queue wait." ["rack", "type"]
    client_out_queue := NewDesc (BuildFQName Namespace "" "client_out_queue")
      "Client out queue." ["rack", "type"]
    server_in_queue := NewDesc (BuildFQName Namespace "" "server_in_queue")
      "Server in queue." ["rack", "type"]
    server_out_queue := NewDesc (BuildFQName Namespace "" "server_out_queue")
      "Server out queue." ["rack", "type"]
    dnode_client_out_queue := NewDesc (BuildFQName Namespace "" "dnode_client_out_queue")
      "Dnode client out queue." ["rack", "type"]
    peer_in_queue := NewDesc (BuildFQName Namespace "" "peer_in_queue")
      "Peer in queue." ["rack", "type"]
    peer_out_queue := NewDesc (BuildFQName Namespace "" "peer_out_queue")
      "Peer out queue." ["rack", "type"]
    remote_peer_in_queue := NewDesc (BuildFQName Namespace "" "remote_peer_in_queue")
      "Remote peer in queue." ["rack", "type"]
    remote_peer_out_queue := NewDesc (BuildFQName Namespace "" "remote_peer_out_queue")
      "Remote peer out queue." ["rack", "type"]
    alloc_msgs := NewDesc (BuildFQName Namespace "" "alloc_msgs")
      "The number of currently allocated messages." ["rack"]
    free_msgs := NewDesc (BuildFQName Namespace "" "free_msgs")
      "The number of currently free messages." ["rack"]
    alloc_mbufs := NewDesc (BuildFQName Namespace "" "alloc_mbufs")
      "The number of allocated mbufs." ["rack"]
    free_mbufs := NewDesc (BuildFQName Namespace "" "free_mbufs")
      "The number of free mbufs." ["rack"]
    dyn_memory := NewDesc (BuildFQName Namespace "" "dyn_memory")
      "Dynomite memory usage." ["rack"] }

/-- The state a method of the exporter runs on: the receiver `e`, the channel `ch` it
sends metrics on, and what has been written to the logger. -/
structure Run where
  e : Exporter
  ch : List Metric
  log : List LogRecord
  deriving DecidableEq, Repr

/-- The state before a scrape: a fresh channel and nothing logged. -/
def Run.start (e : Exporter) : Run := { e := e, ch := [], log := [] }

/-- The statement `ch <- m`. -/
def Run.send (r : Run) (m : Metric) : Run := { r with ch := r.ch ++ [m] }

/-- The statement `level.Error(e.logger).Log(keyvals...)`. -/
def Run.logError (r : Run) (keyvals : List String) : Run :=
  { r with log := r.log ++ [{ logger := r.e.logger, level := "error", keyvals := keyvals }] }

/-- The method `Describe` describes all the metrics exported by the dynomite exporter: the
definitions sent on the channel, in order. -/
def Exporter.Describe (e : Exporter) (ch : List Desc) : List Desc :=
  let ch := ch ++ [e.up]
  let ch := ch ++ [e.uptime]
  let ch := ch ++ [e.latency]
  let ch := ch ++ [e.payload_size]
  let ch := ch ++ [e.cross_region_rtt]
  let ch := ch ++ [e.cross_zone_latency]
  let ch := ch ++ [e.server_latency]
  let ch := ch ++ [e.server_queue_wait]
  let ch := ch ++ [e.cross_region_queue_wait]
  let ch := ch ++ [e.client_out_queue]
  let ch := ch ++ [e.server_in_queue]
  let ch := ch ++ [e.server_out_queue]
  let ch := ch ++ [e.dnode_client_out_queue]
  let ch := ch ++ [e.peer_in_queue]
  let ch := ch ++ [e.peer_out_queue]
  let ch := ch ++ [e.remote_peer_in_queue]
  let ch := ch ++ [e.remote_peer_out_queue]
  let ch := ch ++ [e.alloc_msgs]
  let ch := ch ++ [e.free_msgs]
  let ch := ch ++ [e.alloc_mbufs]
  let ch := ch ++ [e.free_mbufs]
  let ch := ch ++ [e.dyn_memory]
  ch

/-- The method `parseStats` sends one sample per projected field of the document and returns the
state reached together with `parseError`, which no statement assigns. -/
def Exporter.parseStats (r : Run) (stats : DynomiteMetrics) :
    Except Panic (Run × Option GoError) := do
  let parseError : Option GoError := none

  let r := r.send (← MustNewConstMetric r.e.uptime .CounterValue (float64 stats.Uptime) [stats.Rack])

  let r := r.send (← MustNewConstMetric r.e.latency .CounterValue (float64 stats.LatencyMax) [stats.Rack, "max"])
  let r := r.send (← MustNewConstMetric r.e.latency .CounterValue (float64 stats.Latency999Th) [stats.Rack, "999"])
  let r := r.send (← MustNewConstMetric r.e.latency .CounterValue (float64 stats.Latency99Th) [stats.Rack, "99"])
  let r := r.send (← MustNewConstMetric r.e.latency .CounterValue (float64 stats.Latency95Th) [stats.Rack, "95"])
  let r := r.send (← MustNewConstMetric r.e.latency .CounterValue (float64 stats.LatencyMean) [stats.Rack, "50"])

  let r := r.send (← MustNewConstMetric r.e.payload_size .GaugeValue (float64 stats.PayloadSizeMax) [stats.Rack, "max"])
  let r := r.send (← MustNewConstMetric r.e.payload_size .GaugeValue (float64 stats.PayloadSize999Th) [stats.Rack, "999"])
  let r := r.send (← MustNewConstMetric r.e.payload_size .GaugeValue (float64 stats.PayloadSize99Th) [stats.Rack, "99"])
  let r := r.send (← MustNewConstMetric r.e.payload_size .GaugeValue (float64 stats.PayloadSize95Th) [stats.Rack, "95"])
  let r := r.send (← MustNewConstMetric r.e.payload_size .GaugeValue (float64 stats.PayloadSizeMean) [stats.Rack, "50"])

  let r := r.send (← MustNewConstMetric r.e.cross_region_rtt .GaugeValue (float64 stats.Nine9CrossRegionRtt) [stats.Rack, "99"])
  let r := r.send (← MustNewConstMetric r.e.cross_region_rtt .GaugeValue (float64 stats.AverageCrossRegionRtt) [stats.Rack, "50"])

  let r := r.send (← MustNewConstMetric r.e.cross_zone_latency .GaugeValue (float64 stats.Nine9CrossZoneLatency) [stats.Rack, "99"])
  let r := r.send (← MustNewConstMetric r.e.cross_zone_latency .GaugeValue (float64 stats.AverageCrossZoneLatency) [stats.Rack, "50"])

  let r := r.send (← MustNewConstMetric r.e.server_latency .GaugeValue (float64 stats.Nine9ServerLatency) [stats.Rack, "99"])
  let r := r.send (← MustNewConstMetric r.e.server_latency .GaugeValue (float64 stats.AverageServerLatency) [stats.Rack, "50"])

  let r := r.send (← MustNewConstMetric r.e.server_queue_wait .GaugeValue (float64 stats.Nine9ServerQueueWait) [stats.Rack, "99"])
  let r := r.send (← MustNewConstMetric r.e.server_queue_wait .GaugeValue (float64 stats.AverageServerQueueWait) [stats.Rack, "50"])

  let r := r.send (← MustNewConstMetric r.e.cross_region_queue_wait .GaugeValue (float64 stats.Nine9CrossRegionQueueWait) [stats.Rack, "99"])
  let r := r.send (← MustNewConstMetric r.e.cross_region_queue_wait .GaugeValue (float64 stats.AverageCrossRegionQueueWait) [stats.Rack, "50"])

  let r := r.send (← MustNewConstMetric r.e.client_out_queue .GaugeValue (float64 stats.ClientOutQueue99) [stats.Rack, "99"])

  let r := r.send (← MustNewConstMetric r.e.server_in_queue .GaugeValue (float64 stats.ServerInQueue99) [stats.Rack, "99"])
  let r := r.send (← MustNewConstMetric r.e.server_out_queue .GaugeValue (float64 stats.ServerOutQueue99) [stats.Rack, "99"])

  let r := r.send (← MustNewConstMetric r.e.dnode_client_out_queue .GaugeValue (float64 stats.DnodeClientOutQueue99) [stats.Rack, "99"])

  let r := r.send (← MustNewConstMetric r.e.peer_in_queue .GaugeValue (float64 stats.PeerInQueue99) [stats.Rack, "99"])
  let r := r.send (← MustNewConstMetric r.e.peer_out_queue .GaugeValue (float64 stats.PeerOutQueue99) [stats.Rack, "99"])

  let r := r.send (← MustNewConstMetric r.e.remote_peer_in_queue .GaugeValue (float64 stats.RemotePeerInQueue99) [stats.Rack, "99"])
  let r := r.send (← MustNewConstMetric r.e.remote_peer_out_queue .GaugeValue (float64 stats.RemotePeerOutQueue99) [stats.Rack, "99"])

  let r := r.send (← MustNewConstMetric r.e.alloc_msgs .GaugeValue (float64 stats.AllocMsgs) [stats.Rack])
  let r := r.send (← MustNewConstMetric r.e.free_msgs .GaugeValue (float64 stats.FreeMsgs) [stats.Rack])

  let r := r.send (← MustNewConstMetric r.e.alloc_mbufs .GaugeValue (float64 stats.AllocMbufs) [stats.Rack])
  let r := r.send (← MustNewConstMetric r.e.free_mbufs .GaugeValue (float64 stats.FreeMbufs) [stats.Rack])

  let r := r.send (← MustNewConstMetric r.e.dyn_memory .GaugeValue (float64 stats.DynMemory) [stats.Rack])

  return (r, parseError)

/-- One call of `http.Get`, as its caller meets it: the time that passes until the call
returns, and the transport error or the response it returns. -/
structure Exchange where
  elapsed : Duration
  result : Except GoError String

/-- The world outside the process: what `http.Get` does for a URL (the response is held as
its body), and what `json.NewDecoder(body).Decode(&metrics)` leaves in a zero-valued
`metrics` and returns for a body. -/
structure Upstream where
  httpGet : String → Exchange
  decode : String → DynomiteMetrics × Option GoError

/-- The function `GetMetrics` fetches `url` and decodes the body of the response. -/
def GetMetrics (world : Upstream) (url : String) : DynomiteMetrics × Option GoError :=
  let metrics : DynomiteMetrics := {}
  match (world.httpGet url).result with
  | .error err => (metrics, some err)
  | .ok body => world.decode body

/-- The method `Collect` fetches the statistics from the configured dynomite server, and delivers
them as Prometheus metrics. -/
def Exporter.Collect (world : Upstream) (r : Run) : Except Panic Run := do
  let (stats, err) := GetMetrics world r.e.address
  match err with
  | some err =>
    let r := r.send (← MustNewConstMetric r.e.up .GaugeValue (float64 0) [])
    let r := r.logError ["msg", "Failed to connect to dynomite", "err", err]
    return r
  | none =>
    let up := float64 1
    let (r, perr) ← Exporter.parseStats r stats
    let up := if perr.isSome then float64 0 else up
    let r := r.send (← MustNewConstMetric r.e.up .GaugeValue up [])
    return r

/-! ## `main.go`: the defaults of the flags -/

/-- Default of the flag `dynomite.address`. -/
def defaultAddress : String := "localhost:22222"

/-- Default of the flag `dynomite.timeout` (`1s`), in nanoseconds. -/
def defaultTimeout : Duration := 1000000000

/-! ## Reading the emitted samples -/

/-- The fully qualified name of the definition a sample references. -/
def Metric.name (m : Metric) : String := m.desc.fqName

/-- The samples of a channel that carry the given metric name, in emission order. -/
def samplesNamed (name : String) (ch : List Metric) : List Metric :=
  ch.filter (fun m => m.name == name)

/-- The labels of a sample: each label name of its definition with the label value at the
same position. -/
def Metric.labelPairs (m : Metric) : List (String × String) :=
  m.desc.variableLabels.zip m.labelValues

/-- The value a sample gives to a label name of its definition. -/
def Metric.label (m : Metric) (labelName : String) : Option String :=
  m.labelPairs.lookup labelName

/-! ## Upstreams and documents used as concrete inputs -/

/-- The logger of the concrete runs. -/
def stderrLogger : Logger := { id := 0 }

/-- An upstream whose port refuses every connection. -/
def refusingUpstream : Upstream :=
  { httpGet := fun _ => { elapsed := 0, result := .error "connect: connection refused" }
    decode := fun _ => ({}, none) }

/-- An upstream that answers every GET at once with a body that decodes to `doc`. -/
def servingUpstream (doc : DynomiteMetrics) : Upstream :=
  { httpGet := fun _ => { elapsed := 0, result := .ok "status document" }
    decode := fun _ => (doc, none) }

/-- A dynomite node that listens on `localhost:22222`, met through an HTTP client that takes
only URLs of scheme `http`: the GET of `http://localhost:22222` is answered with a body
that decodes to `doc`, any other request target is rejected by the client. -/
def localNode (doc : DynomiteMetrics) : Upstream :=
  { httpGet := fun url =>
      if url = "http://localhost:22222" then { elapsed := 0, result := .ok "status document" }
      else { elapsed := 0, result := .error "unsupported protocol scheme" }
    decode := fun _ => (doc, none) }

/-- An upstream that takes five seconds to answer a GET, then answers with a body that
decodes to `doc`. -/
def slowUpstream (doc : DynomiteMetrics) : Upstream :=
  { httpGet := fun _ => { elapsed := 5000000000, result := .ok "status document" }
    decode := fun _ => (doc, none) }

/-- The document `"uptime": 12345, "rack": "us-east-1a"`, every other field absent. -/
def uptimeDoc : DynomiteMetrics := { Uptime := 12345, Rack := "us-east-1a" }

/-- The document `"latency_99th": 42, "latency_mean": 7, "rack": "r1"`, every other field
absent. -/
def latencyDoc : DynomiteMetrics := { Latency99Th := 42, LatencyMean := 7, Rack := "r1" }

/-- The document `"uptime": 9007199254740993, "rack": "us-east-1a"`: an uptime of
`2^53 + 1`, which an `int` holds and no `float64` is equal to. -/
def bigUptimeDoc : DynomiteMetrics := { Uptime := 9007199254740993, Rack := "us-east-1a" }

/-- The document `"latency_99th": 9007199254740993, "latency_mean": 7, "rack": "r1"`. -/
def bigLatencyDoc : DynomiteMetrics :=
  { Latency99Th := 9007199254740993, LatencyMean := 7, Rack := "r1" }

/-- The document `"dyn_memory": 9007199254740993, "rack": "r1"`. -/
def bigMemoryDoc : DynomiteMetrics := { DynMemory := 9007199254740993, Rack := "r1" }


/-! ## The struct tags of `types.go` -/

/-- The string fields of the document at the top level, each under the JSON key of its
struct tag. -/
def DynomiteMetrics.stringFields (stats : DynomiteMetrics) : List (String × String) :=
  [("service", stats.Service),
   ("source", stats.Source),
   ("version", stats.Version),
   ("rack", stats.Rack),
   ("dc", stats.Dc)]

/-- The integer fields of the document at the top level, in the order of the declaration,
each under the JSON key of its struct tag. -/
def DynomiteMetrics.intFields (stats : DynomiteMetrics) : List (String × Int) :=
  [("uptime", stats.Uptime),
   ("timestamp", stats.Timestamp),
   ("latency_max", stats.LatencyMax),
   ("latency_999th", stats.Latency999Th),
   ("latency_99th", stats.Latency99Th),
   ("latency_95th", stats.Latency95Th),
   ("latency_mean", stats.LatencyMean),
   ("payload_size_max", stats.PayloadSizeMax),
   ("payload_size_999th", stats.PayloadSize999Th),
   ("payload_size_99th", stats.PayloadSize99Th),
   ("payload_size_95th", stats.PayloadSize95Th),
   ("payload_size_mean", stats.PayloadSizeMean),
   ("average_cross_region_rtt", stats.AverageCrossRegionRtt),
   ("99_cross_region_rtt", stats.Nine9CrossRegionRtt),
   ("average_cross_zone_latency", stats.AverageCrossZoneLatency),
   ("99_cross_zone_latency", stats.Nine9CrossZoneLatency),
   ("average_server_latency", stats.AverageServerLatency),
   ("99_server_latency", stats.Nine9ServerLatency),
   ("average_cross_region_queue_wait", stats.AverageCrossRegionQueueWait),
   ("99_cross_region_queue_wait", stats.Nine9CrossRegionQueueWait),
   ("average_cross_zone_queue_wait", stats.AverageCrossZoneQueueWait),
   ("99_cross_zone_queue_wait", stats.Nine9CrossZoneQueueWait),
   ("average_server_queue_wait", stats.AverageServerQueueWait),
   ("99_server_queue_wait", stats.Nine9ServerQueueWait),
   ("client_out_queue_99", stats.ClientOutQueue99),
   ("server_in_queue_99", stats.ServerInQueue99),
   ("server_out_queue_99", stats.ServerOutQueue99),
   ("dnode_client_out_queue_99", stats.DnodeClientOutQueue99),
   ("peer_in_queue_99", stats.PeerInQueue99),
   ("peer_out_queue_99", stats.PeerOutQueue99),
   ("remote_peer_out_queue_99", stats.RemotePeerOutQueue99),
   ("remote_peer_in_queue_99", stats.RemotePeerInQueue99),
   ("alloc_msgs", stats.AllocMsgs),
   ("free_msgs", stats.FreeMsgs),
   ("alloc_mbufs", stats.AllocMbufs),
   ("free_mbufs", stats.FreeMbufs),
   ("dyn_memory", stats.DynMemory)]

/-- The string field that the decoder fills from the JSON key, if the document declares
one. -/
def DynomiteMetrics.stringField (stats : DynomiteMetrics) (key : String) : Option String :=
  stats.stringFields.lookup key

/-- The integer field that the decoder fills from the JSON key, if the document declares
one. -/
def DynomiteMetrics.intField (stats : DynomiteMetrics) (key : String) : Option Int :=
  stats.intFields.lookup key

/-- The family of a sample: its metric name without the namespace and the underscore. -/
def Metric.family (m : Metric) : String := m.name.drop (Namespace.length + 1)

/-- The JSON key that the specification assigns to a family and a value of the label
`type` (none for a family without that label), following its words: for latency and
payload_size the types max, 999, 99, 95, 50 read the family followed by `_max`, `_999th`,
`_99th`, `_95th`, `_mean`; for cross_region_rtt, cross_zone_latency, server_latency,
server_queue_wait and cross_region_queue_wait the type 99 reads `99_` and the type 50 reads
`average_` followed by the family; for the eight queue families the type 99 reads the
family followed by `_99`; alloc_msgs, free_msgs, alloc_mbufs, free_mbufs and dyn_memory
read the field of their own name; uptime_seconds reads `uptime`. -/
def specKey (family : String) (ty : Option String) : Option String :=
  if family ∈ ["latency", "payload_size"] then
    ([(some "max", "_max"), (some "999", "_999th"), (some "99", "_99th"),
      (some "95", "_95th"), (some "50", "_mean")].lookup ty).map (fun s => family ++ s)
  else if family ∈ ["cross_region_rtt", "cross_zone_latency", "server_latency",
      "server_queue_wait", "cross_region_queue_wait"] then
    ([(some "99", "99_"), (some "50", "average_")].lookup ty).map (fun s => s ++ family)
  else if family ∈ ["client_out_queue", "server_in_queue", "server_out_queue",
      "dnode_client_out_queue", "peer_in_queue", "peer_out_queue", "remote_peer_in_queue",
      "remote_peer_out_queue"] then
    if ty = some "99" then some (family ++ "_99") else none
  else if family ∈ ["alloc_msgs", "free_msgs", "alloc_mbufs", "free_mbufs", "dyn_memory"] then
    if ty = none then some family else none
  else if family = "uptime_seconds" then
    if ty = none then some "uptime" else none
  else none

/-! # Theorems -/

/-! ## The definitions that `New` builds -/

/-- Every definition that `New` builds, written out: the name carries the namespace, the
label names are the ones of the call, and the validation of `NewDesc` finds no error. -/
theorem New_descs (a : String) (t : Duration) (l : Logger) :
    (New a t l).up = ⟨"dynomite_up", "Could the qynomite server be reached.", [], none⟩ ∧
    (New a t l).uptime = ⟨"dynomite_uptime_seconds", "Number of seconds since the server started.", ["rack"], none⟩ ∧
    (New a t l).latency = ⟨"dynomite_latency", "Server latency.", ["rack", "type"], none⟩ ∧
    (New a t l).payload_size = ⟨"dynomite_payload_size", "Payload size.", ["rack", "type"], none⟩ ∧
    (New a t l).cross_region_rtt = ⟨"dynomite_cross_region_rtt", "Cross region RTT.", ["rack", "type"], none⟩ ∧
    (New a t l).cross_zone_latency = ⟨"dynomite_cross_zone_latency", "Cross region latency.", ["rack", "type"], none⟩ ∧
    (New a t l).server_latency = ⟨"dynomite_server_latency", "Server latency.", ["rack", "type"], none⟩ ∧
    (New a t l).server_queue_wait = ⟨"dynomite_server_queue_wait", "Server queue wait.", ["rack", "type"], none⟩ ∧
    (New a t l).cross_region_queue_wait = ⟨"dynomite_cross_region_queue_wait", "Cross region queue wait.", ["rack", "type"], none⟩ ∧
    (New a t l).client_out_queue = ⟨"dynomite_client_out_queue", "Client out queue.", ["rack", "type"], none⟩ ∧
    (New a t l).server_in_queue = ⟨"dynomite_server_in_queue", "Server in queue.", ["rack", "type"], none⟩ ∧
    (New a t l).server_out_queue = ⟨"dynomite_server_out_queue", "Server out queue.", ["rack", "type"], none⟩ ∧
    (New a t l).dnode_client_out_queue = ⟨"dynomite_dnode_client_out_queue", "Dnode client out queue.", ["rack", "type"], none⟩ ∧
    (New a t l).peer_in_queue = ⟨"dynomite_peer_in_queue", "Peer in queue.", ["rack", "type"], none⟩ ∧
    (New a t l).peer_out_queue = ⟨"dynomite_peer_out_queue", "Peer out queue.", ["rack", "type"], none⟩ ∧
    (New a t l).remote_peer_in_queue = ⟨"dynomite_remote_peer_in_queue", "Remote peer in queue.", ["rack", "type"], none⟩ ∧
    (New a t l).remote_peer_out_queue = ⟨"dynomite_remote_peer_out_queue", "Remote peer out queue.", ["rack", "type"], none⟩ ∧
    (New a t l).alloc_msgs = ⟨"dynomite_alloc_msgs", "The number of currently allocated messages.", ["rack"], none⟩ ∧
    (New a t l).free_msgs = ⟨"dynomite_free_msgs", "The number of currently free messages.", ["rack"], none⟩ ∧
    (New a t l).alloc_mbufs = ⟨"dynomite_alloc_mbufs", "The number of allocated mbufs.", ["rack"], none⟩ ∧
    (New a t l).free_mbufs = ⟨"dynomite_free_mbufs", "The number of free mbufs.", ["rack"], none⟩ ∧
    (New a t l).dyn_memory = ⟨"dynomite_dyn_memory", "Dynomite memory usage.", ["rack"], none⟩ :=
  ⟨rfl, rfl, rfl, rfl, rfl, rfl, rfl, rfl, rfl, rfl, rfl, rfl, rfl, rfl, rfl, rfl, rfl, rfl, rfl, rfl, rfl, rfl⟩

/-- The address, timeout and logger of an exporter are the arguments of `New`. -/
theorem New_config (a : String) (t : Duration) (l : Logger) :
    (New a t l).address = a ∧ (New a t l).timeout = t ∧ (New a t l).logger = l :=
  ⟨rfl, rfl, rfl⟩

/-- A definition free of error, given as many label values as it has label names, yields the
sample without a panic. -/
theorem MustNewConstMetric_ok (d : Desc) (k : ValueType) (v : Float64) (ls : List String)
    (h : d.err = none) (hl : ls.length = d.variableLabels.length) :
    MustNewConstMetric d k v ls = .ok ⟨d, k, v, ls⟩ := by
  simp [MustNewConstMetric, NewConstMetric, h, hl]

/-- What `parseStats` does on an exporter built by `New`: it returns without a panic and
without an error, having sent these 34 samples in this order. -/
theorem parseStats_New (a : String) (t : Duration) (l : Logger) (ch : List Metric)
    (log : List LogRecord) (stats : DynomiteMetrics) :
    Exporter.parseStats ⟨New a t l, ch, log⟩ stats =
      .ok (⟨New a t l, ch ++ [
        ⟨(New a t l).uptime, .CounterValue, float64 stats.Uptime, [stats.Rack]⟩,
        ⟨(New a t l).latency, .CounterValue, float64 stats.LatencyMax, [stats.Rack, "max"]⟩,
        ⟨(New a t l).latency, .CounterValue, float64 stats.Latency999Th, [stats.Rack, "999"]⟩,
        ⟨(New a t l).latency, .CounterValue, float64 stats.Latency99Th, [stats.Rack, "99"]⟩,
        ⟨(New a t l).latency, .CounterValue, float64 stats.Latency95Th, [stats.Rack, "95"]⟩,
        ⟨(New a t l).latency, .CounterValue, float64 stats.LatencyMean, [stats.Rack, "50"]⟩,
        ⟨(New a t l).payload_size, .GaugeValue, float64 stats.PayloadSizeMax, [stats.Rack, "max"]⟩,
        ⟨(New a t l).payload_size, .GaugeValue, float64 stats.PayloadSize999Th, [stats.Rack, "999"]⟩,
        ⟨(New a t l).payload_size, .GaugeValue, float64 stats.PayloadSize99Th, [stats.Rack, "99"]⟩,
        ⟨(New a t l).payload_size, .GaugeValue, float64 stats.PayloadSize95Th, [stats.Rack, "95"]⟩,
        ⟨(New a t l).payload_size, .GaugeValue, float64 stats.PayloadSizeMean, [stats.Rack, "50"]⟩,
        ⟨(New a t l).cross_region_rtt, .GaugeValue, float64 stats.Nine9CrossRegionRtt, [stats.Rack, "99"]⟩,
        ⟨(New a t l).cross_region_rtt, .GaugeValue, float64 stats.AverageCrossRegionRtt, [stats.Rack, "50"]⟩,
        ⟨(New a t l).cross_zone_latency, .GaugeValue, float64 stats.Nine9CrossZoneLatency, [stats.Rack, "99"]⟩,
        ⟨(New a t l).cross_zone_latency, .GaugeValue, float64 stats.AverageCrossZoneLatency, [stats.Rack, "50"]⟩,
        ⟨(New a t l).server_latency, .GaugeValue, float64 stats.Nine9ServerLatency, [stats.Rack, "99"]⟩,
        ⟨(New a t l).server_latency, .GaugeValue, float64 stats.AverageServerLatency, [stats.Rack, "50"]⟩,
        ⟨(New a t l).server_queue_wait, .GaugeValue, float64 stats.Nine9ServerQueueWait, [stats.Rack, "99"]⟩,
        ⟨(New a t l).server_queue_wait, .GaugeValue, float64 stats.AverageServerQueueWait, [stats.Rack, "50"]⟩,
        ⟨(New a t l).cross_region_queue_wait, .GaugeValue, float64 stats.Nine9CrossRegionQueueWait, [stats.Rack, "99"]⟩,
        ⟨(New a t l).cross_region_queue_wait, .GaugeValue, float64 stats.AverageCrossRegionQueueWait, [stats.Rack, "50"]⟩,
        ⟨(New a t l).client_out_queue, .GaugeValue, float64 stats.ClientOutQueue99, [stats.Rack, "99"]⟩,
        ⟨(New a t l).server_in_queue, .GaugeValue, float64 stats.ServerInQueue99, [stats.Rack, "99"]⟩,
        ⟨(New a t l).server_out_queue, .GaugeValue, float64 stats.ServerOutQueue99, [stats.Rack, "99"]⟩,
        ⟨(New a t l).dnode_client_out_queue, .GaugeValue, float64 stats.DnodeClientOutQueue99, [stats.Rack, "99"]⟩,
        ⟨(New a t l).peer_in_queue, .GaugeValue, float64 stats.PeerInQueue99, [stats.Rack, "99"]⟩,
        ⟨(New a t l).peer_out_queue, .GaugeValue, float64 stats.PeerOutQueue99, [stats.Rack, "99"]⟩,
        ⟨(New a t l).remote_peer_in_queue, .GaugeValue, float64 stats.RemotePeerInQueue99, [stats.Rack, "99"]⟩,
        ⟨(New a t l).remote_peer_out_queue, .GaugeValue, float64 stats.RemotePeerOutQueue99, [stats.Rack, "99"]⟩,
        ⟨(New a t l).alloc_msgs, .GaugeValue, float64 stats.AllocMsgs, [stats.Rack]⟩,
        ⟨(New a t l).free_msgs, .GaugeValue, float64 stats.FreeMsgs, [stats.Rack]⟩,
        ⟨(New a t l).alloc_mbufs, .GaugeValue, float64 stats.AllocMbufs, [stats.Rack]⟩,
        ⟨(New a t l).free_mbufs, .GaugeValue, float64 stats.FreeMbufs, [stats.Rack]⟩,
        ⟨(New a t l).dyn_memory, .GaugeValue, float64 stats.DynMemory, [stats.Rack]⟩],
        log⟩, none) := by
  obtain ⟨
    h_up, h_uptime, h_latency, h_payload_size, h_cross_region_rtt, h_cross_zone_latency,
    h_server_latency, h_server_queue_wait, h_cross_region_queue_wait, h_client_out_queue,
    h_server_in_queue, h_server_out_queue, h_dnode_client_out_queue, h_peer_in_queue,
    h_peer_out_queue, h_remote_peer_in_queue, h_remote_peer_out_queue, h_alloc_msgs,
    h_free_msgs, h_alloc_mbufs, h_free_mbufs, h_dyn_memory ⟩ :=
    New_descs a t l
  generalize New a t l = e at *
  simp only [Exporter.parseStats, Run.send, bind, Except.bind, pure, Except.pure]
  simp only [MustNewConstMetric_ok, *, List.length_cons, List.length_nil, List.append_assoc,
    List.cons_append, List.nil_append]

/-- What `Collect` does when `GetMetrics` returns a document and no error: the 34 samples
of `parseStats`, then `up` with value 1; nothing is logged and the exporter is as before. -/
theorem Collect_decoded (world : Upstream) (a : String) (t : Duration) (l : Logger)
    (stats : DynomiteMetrics) (h : GetMetrics world a = (stats, none)) :
    Exporter.Collect world (Run.start (New a t l)) =
      .ok ⟨New a t l, [
        ⟨(New a t l).uptime, .CounterValue, float64 stats.Uptime, [stats.Rack]⟩,
        ⟨(New a t l).latency, .CounterValue, float64 stats.LatencyMax, [stats.Rack, "max"]⟩,
        ⟨(New a t l).latency, .CounterValue, float64 stats.Latency999Th, [stats.Rack, "999"]⟩,
        ⟨(New a t l).latency, .CounterValue, float64 stats.Latency99Th, [stats.Rack, "99"]⟩,
        ⟨(New a t l).latency, .CounterValue, float64 stats.Latency95Th, [stats.Rack, "95"]⟩,
        ⟨(New a t l).latency, .CounterValue, float64 stats.LatencyMean, [stats.Rack, "50"]⟩,
        ⟨(New a t l).payload_size, .GaugeValue, float64 stats.PayloadSizeMax, [stats.Rack, "max"]⟩,
        ⟨(New a t l).payload_size, .GaugeValue, float64 stats.PayloadSize999Th, [stats.Rack, "999"]⟩,
        ⟨(New a t l).payload_size, .GaugeValue, float64 stats.PayloadSize99Th, [stats.Rack, "99"]⟩,
        ⟨(New a t l).payload_size, .GaugeValue, float64 stats.PayloadSize95Th, [stats.Rack, "95"]⟩,
        ⟨(New a t l).payload_size, .GaugeValue, float64 stats.PayloadSizeMean, [stats.Rack, "50"]⟩,
        ⟨(New a t l).cross_region_rtt, .GaugeValue, float64 stats.Nine9CrossRegionRtt, [stats.Rack, "99"]⟩,
        ⟨(New a t l).cross_region_rtt, .GaugeValue, float64 stats.AverageCrossRegionRtt, [stats.Rack, "50"]⟩,
        ⟨(New a t l).cross_zone_latency, .GaugeValue, float64 stats.Nine9CrossZoneLatency, [stats.Rack, "99"]⟩,
        ⟨(New a t l).cross_zone_latency, .GaugeValue, float64 stats.AverageCrossZoneLatency, [stats.Rack, "50"]⟩,
        ⟨(New a t l).server_latency, .GaugeValue, float64 stats.Nine9ServerLatency, [stats.Rack, "99"]⟩,
        ⟨(New a t l).server_latency, .GaugeValue, float64 stats.AverageServerLatency, [stats.Rack, "50"]⟩,
        ⟨(New a t l).server_queue_wait, .GaugeValue, float64 stats.Nine9ServerQueueWait, [stats.Rack, "99"]⟩,
        ⟨(New a t l).server_queue_wait, .GaugeValue, float64 stats.AverageServerQueueWait, [stats.Rack, "50"]⟩,
        ⟨(New a t l).cross_region_queue_wait, .GaugeValue, float64 stats.Nine9CrossRegionQueueWait, [stats.Rack, "99"]⟩,
        ⟨(New a t l).cross_region_queue_wait, .GaugeValue, float64 stats.AverageCrossRegionQueueWait, [stats.Rack, "50"]⟩,
        ⟨(New a t l).client_out_queue, .GaugeValue, float64 stats.ClientOutQueue99, [stats.Rack, "99"]⟩,
        ⟨(New a t l).server_in_queue, .GaugeValue, float64 stats.ServerInQueue99, [stats.Rack, "99"]⟩,
        ⟨(New a t l).server_out_queue, .GaugeValue, float64 stats.ServerOutQueue99, [stats.Rack, "99"]⟩,
        ⟨(New a t l).dnode_client_out_queue, .GaugeValue, float64 stats.DnodeClientOutQueue99, [stats.Rack, "99"]⟩,
        ⟨(New a t l).peer_in_queue, .GaugeValue, float64 stats.PeerInQueue99, [stats.Rack, "99"]⟩,
        ⟨(New a t l).peer_out_queue, .GaugeValue, float64 stats.PeerOutQueue99, [stats.Rack, "99"]⟩,
        ⟨(New a t l).remote_peer_in_queue, .GaugeValue, float64 stats.RemotePeerInQueue99, [stats.Rack, "99"]⟩,
        ⟨(New a t l).remote_peer_out_queue, .GaugeValue, float64 stats.RemotePeerOutQueue99, [stats.Rack, "99"]⟩,
        ⟨(New a t l).alloc_msgs, .GaugeValue, float64 stats.AllocMsgs, [stats.Rack]⟩,
        ⟨(New a t l).free_msgs, .GaugeValue, float64 stats.FreeMsgs, [stats.Rack]⟩,
        ⟨(New a t l).alloc_mbufs, .GaugeValue, float64 stats.AllocMbufs, [stats.Rack]⟩,
        ⟨(New a t l).free_mbufs, .GaugeValue, float64 stats.FreeMbufs, [stats.Rack]⟩,
        ⟨(New a t l).dyn_memory, .GaugeValue, float64 stats.DynMemory, [stats.Rack]⟩,
        ⟨(New a t l).up, .GaugeValue, float64 1, []⟩],
        []⟩ := by
  have hup := (New_descs a t l).1
  have hps := parseStats_New a t l [] [] stats
  simp only [Exporter.Collect, Run.start, (New_config a t l).1, h, hps, bind, Except.bind, pure,
    Except.pure, Run.send]
  simp only [MustNewConstMetric_ok, hup, List.length_nil, List.nil_append, List.cons_append,
    Option.isSome_none, Bool.false_eq_true, if_false]

/-- What `Collect` does when `GetMetrics` returns an error: `up` with value 0 is the only
sample, the error is logged, and the exporter is as before. -/
theorem Collect_failed (world : Upstream) (a : String) (t : Duration) (l : Logger)
    (stats : DynomiteMetrics) (err : GoError) (h : GetMetrics world a = (stats, some err)) :
    Exporter.Collect world (Run.start (New a t l)) =
      .ok ⟨New a t l, [⟨(New a t l).up, .GaugeValue, float64 0, []⟩],
        [⟨l, "error", ["msg", "Failed to connect to dynomite", "err", err]⟩]⟩ := by
  have hup := (New_descs a t l).1
  simp only [Exporter.Collect, Run.start, (New_config a t l).1, h, bind, Except.bind, pure,
    Except.pure, Run.send, Run.logError]
  simp only [MustNewConstMetric_ok, hup, List.length_nil, List.nil_append,
    (New_config a t l).2.2]

/-- What `Describe` sends for an exporter built by `New`: the 22 definitions, in the order
of the statements. -/
theorem Describe_New (a : String) (t : Duration) (l : Logger) :
    (New a t l).Describe [] = [
      ⟨"dynomite_up", "Could the qynomite server be reached.", [], none⟩,
      ⟨"dynomite_uptime_seconds", "Number of seconds since the server started.", ["rack"], none⟩,
      ⟨"dynomite_latency", "Server latency.", ["rack", "type"], none⟩,
      ⟨"dynomite_payload_size", "Payload size.", ["rack", "type"], none⟩,
      ⟨"dynomite_cross_region_rtt", "Cross region RTT.", ["rack", "type"], none⟩,
      ⟨"dynomite_cross_zone_latency", "Cross region latency.", ["rack", "type"], none⟩,
      ⟨"dynomite_server_latency", "Server latency.", ["rack", "type"], none⟩,
      ⟨"dynomite_server_queue_wait", "Server queue wait.", ["rack", "type"], none⟩,
      ⟨"dynomite_cross_region_queue_wait", "Cross region queue wait.", ["rack", "type"], none⟩,
      ⟨"dynomite_client_out_queue", "Client out queue.", ["rack", "type"], none⟩,
      ⟨"dynomite_server_in_queue", "Server in queue.", ["rack", "type"], none⟩,
      ⟨"dynomite_server_out_queue", "Server out queue.", ["rack", "type"], none⟩,
      ⟨"dynomite_dnode_client_out_queue", "Dnode client out queue.", ["rack", "type"], none⟩,
      ⟨"dynomite_peer_in_queue", "Peer in queue.", ["rack", "type"], none⟩,
      ⟨"dynomite_peer_out_queue", "Peer out queue.", ["rack", "type"], none⟩,
      ⟨"dynomite_remote_peer_in_queue", "Remote peer in queue.", ["rack", "type"], none⟩,
      ⟨"dynomite_remote_peer_out_queue", "Remote peer out queue.", ["rack", "type"], none⟩,
      ⟨"dynomite_alloc_msgs", "The number of currently allocated messages.", ["rack"], none⟩,
      ⟨"dynomite_free_msgs", "The number of currently free messages.", ["rack"], none⟩,
      ⟨"dynomite_alloc_mbufs", "The number of allocated mbufs.", ["rack"], none⟩,
      ⟨"dynomite_free_mbufs", "The number of free mbufs.", ["rack"], none⟩,
      ⟨"dynomite_dyn_memory", "Dynomite memory usage.", ["rack"], none⟩] := by
  obtain ⟨
    h_up, h_uptime, h_latency, h_payload_size, h_cross_region_rtt, h_cross_zone_latency,
    h_server_latency, h_server_queue_wait, h_cross_region_queue_wait, h_client_out_queue,
    h_server_in_queue, h_server_out_queue, h_dnode_client_out_queue, h_peer_in_queue,
    h_peer_out_queue, h_remote_peer_in_queue, h_remote_peer_out_queue, h_alloc_msgs,
    h_free_msgs, h_alloc_mbufs, h_free_mbufs, h_dyn_memory ⟩ :=
    New_descs a t l
  generalize New a t l = e at *
  simp only [Exporter.Describe, *, List.nil_append, List.cons_append]


/-! ## The conversion to `float64` -/

/-- A number below `2^53` has no excess bit. -/
theorem excessBits_small (fuel n : Nat) (h : n < 2 ^ 53) : excessBits fuel n = 0 := by
  cases fuel with
  | zero => rfl
  | succ f =>
    have h53 : n < 9007199254740992 := by norm_num at h; exact h
    simp [excessBits, h53]

/-- Rounding to 53 bits leaves a natural number of at most `2^53` as it is. -/
theorem roundToEven53_exact (n : Nat) (h : n ≤ 2 ^ 53) : roundToEven53 n = n := by
  rcases Nat.lt_or_eq_of_le h with hlt | heq
  · simp [roundToEven53, excessBits_small n n hlt, Nat.mod_one]
  · subst heq; decide

/-- The conversion `float64(i)` is exact when the magnitude of `i` is at most `2^53`. -/
theorem float64_exact (i : Int) (h : i.natAbs ≤ 2 ^ 53) : float64 i = Float64.ofInt i := by
  unfold float64
  rw [roundToEven53_exact _ h, Int.sign_mul_natAbs]

/-- The conversion of `2^53 + 1` is `2^53`: the tie between `2^53` and `2^53 + 2` goes to
the even significand. -/
theorem float64_rounds_at_two_pow_53_add_one :
    float64 9007199254740993 = Float64.ofInt 9007199254740992 := by
  decide

/-! ## C1: a failed fetch -/

/-- C1. Whenever `GetMetrics` returns an error (the connection failed, timed out, or the
body did not decode), `Collect` returns without a panic having sent exactly one sample: the
sample of `dynomite_up`, of kind Gauge, with value 0 and no label; no other sample is
sent. -/
theorem collect_fetch_error_emits_only_up_zero (world : Upstream) (a : String) (t : Duration)
    (l : Logger) (err : GoError) (h : (GetMetrics world a).2 = some err) :
    ∃ r m, Exporter.Collect world (Run.start (New a t l)) = .ok r ∧ r.ch = [m] ∧
      m.name = "dynomite_up" ∧ m.valueType = .GaugeValue ∧ m.value = float64 0 ∧
      m.labelValues = [] := by
  have hup := (New_descs a t l).1
  refine ⟨_, _, Collect_failed world a t l (GetMetrics world a).1 err (Prod.ext rfl h), rfl, ?_,
    rfl, rfl, rfl⟩
  simp only [Metric.name, hup]

/-- C1 at a concrete input: the default address on an upstream that refuses the
connection. -/
theorem collect_fetch_error_emits_only_up_zero_witness :
    (GetMetrics refusingUpstream defaultAddress).2 = some "connect: connection refused" ∧
    ∃ r m, Exporter.Collect refusingUpstream (Run.start (New defaultAddress defaultTimeout
        stderrLogger)) = .ok r ∧ r.ch = [m] ∧
      m.name = "dynomite_up" ∧ m.valueType = .GaugeValue ∧ m.value = float64 0 ∧
      m.labelValues = [] :=
  ⟨rfl, collect_fetch_error_emits_only_up_zero refusingUpstream defaultAddress defaultTimeout
    stderrLogger "connect: connection refused" rfl⟩


/-! ## C2: the number of samples of a successful scrape -/

/-- C2. Whenever `GetMetrics` returns a document and no error, `parseStats` returns no
error and `Collect` returns without a panic having sent 35 samples: exactly one sample of
`dynomite_up`, of kind Gauge with value 1, and 34 others, which are 1 of uptime_seconds,
5 of latency, 5 of payload_size, 2 of each of cross_region_rtt, cross_zone_latency,
server_latency, server_queue_wait and cross_region_queue_wait, 1 of each of the eight queue
families and 1 of each of alloc_msgs, free_msgs, alloc_mbufs, free_mbufs and dyn_memory,
whatever the document holds. -/
theorem collect_decoded_emits_35_samples (world : Upstream) (a : String) (t : Duration)
    (l : Logger) (stats : DynomiteMetrics) (h : GetMetrics world a = (stats, none)) :
    (∃ r, Exporter.parseStats (Run.start (New a t l)) stats = .ok (r, none)) ∧
    ∃ r, Exporter.Collect world (Run.start (New a t l)) = .ok r ∧
      r.ch.length = 35 ∧
      (∃ m, samplesNamed "dynomite_up" r.ch = [m] ∧ m.valueType = .GaugeValue ∧
        m.value = float64 1) ∧
      (r.ch.filter (fun m => m.name != "dynomite_up")).length = 34 ∧
      (samplesNamed "dynomite_uptime_seconds" r.ch).length = 1 ∧
      (samplesNamed "dynomite_latency" r.ch).length = 5 ∧
      (samplesNamed "dynomite_payload_size" r.ch).length = 5 ∧
      (samplesNamed "dynomite_cross_region_rtt" r.ch).length = 2 ∧
      (samplesNamed "dynomite_cross_zone_latency" r.ch).length = 2 ∧
      (samplesNamed "dynomite_server_latency" r.ch).length = 2 ∧
      (samplesNamed "dynomite_server_queue_wait" r.ch).length = 2 ∧
      (samplesNamed "dynomite_cross_region_queue_wait" r.ch).length = 2 ∧
      (samplesNamed "dynomite_client_out_queue" r.ch).length = 1 ∧
      (samplesNamed "dynomite_server_in_queue" r.ch).length = 1 ∧
      (samplesNamed "dynomite_server_out_queue" r.ch).length = 1 ∧
      (samplesNamed "dynomite_dnode_client_out_queue" r.ch).length = 1 ∧
      (samplesNamed "dynomite_peer_in_queue" r.ch).length = 1 ∧
      (samplesNamed "dynomite_peer_out_queue" r.ch).length = 1 ∧
      (samplesNamed "dynomite_remote_peer_in_queue" r.ch).length = 1 ∧
      (samplesNamed "dynomite_remote_peer_out_queue" r.ch).length = 1 ∧
      (samplesNamed "dynomite_alloc_msgs" r.ch).length = 1 ∧
      (samplesNamed "dynomite_free_msgs" r.ch).length = 1 ∧
      (samplesNamed "dynomite_alloc_mbufs" r.ch).length = 1 ∧
      (samplesNamed "dynomite_free_mbufs" r.ch).length = 1 ∧
      (samplesNamed "dynomite_dyn_memory" r.ch).length = 1 := by
  obtain ⟨
    h_up, h_uptime, h_latency, h_payload_size, h_cross_region_rtt, h_cross_zone_latency,
    h_server_latency, h_server_queue_wait, h_cross_region_queue_wait, h_client_out_queue,
    h_server_in_queue, h_server_out_queue, h_dnode_client_out_queue, h_peer_in_queue,
    h_peer_out_queue, h_remote_peer_in_queue, h_remote_peer_out_queue, h_alloc_msgs,
    h_free_msgs, h_alloc_mbufs, h_free_mbufs, h_dyn_memory ⟩ :=
    New_descs a t l
  refine ⟨⟨_, parseStats_New a t l [] [] stats⟩, _, Collect_decoded world a t l stats h, ?_⟩
  generalize New a t l = e at *
  simp [samplesNamed, Metric.name, *]

/-- C2 at a concrete input: the default address on an upstream that serves the document
with uptime 12345 and rack us-east-1a. -/
theorem collect_decoded_emits_35_samples_witness :
    GetMetrics (servingUpstream uptimeDoc) defaultAddress = (uptimeDoc, none) ∧
    ((∃ r, Exporter.parseStats (Run.start (New defaultAddress defaultTimeout stderrLogger))
        uptimeDoc = .ok (r, none)) ∧
    ∃ r, Exporter.Collect (servingUpstream uptimeDoc)
        (Run.start (New defaultAddress defaultTimeout stderrLogger)) = .ok r ∧
      r.ch.length = 35 ∧
      (∃ m, samplesNamed "dynomite_up" r.ch = [m] ∧ m.valueType = .GaugeValue ∧
        m.value = float64 1) ∧
      (r.ch.filter (fun m => m.name != "dynomite_up")).length = 34 ∧
      (samplesNamed "dynomite_uptime_seconds" r.ch).length = 1 ∧
      (samplesNamed "dynomite_latency" r.ch).length = 5 ∧
      (samplesNamed "dynomite_payload_size" r.ch).length = 5 ∧
      (samplesNamed "dynomite_cross_region_rtt" r.ch).length = 2 ∧
      (samplesNamed "dynomite_cross_zone_latency" r.ch).length = 2 ∧
      (samplesNamed "dynomite_server_latency" r.ch).length = 2 ∧
      (samplesNamed "dynomite_server_queue_wait" r.ch).length = 2 ∧
      (samplesNamed "dynomite_cross_region_queue_wait" r.ch).length = 2 ∧
      (samplesNamed "dynomite_client_out_queue" r.ch).length = 1 ∧
      (samplesNamed "dynomite_server_in_queue" r.ch).length = 1 ∧
      (samplesNamed "dynomite_server_out_queue" r.ch).length = 1 ∧
      (samplesNamed "dynomite_dnode_client_out_queue" r.ch).length = 1 ∧
      (samplesNamed "dynomite_peer_in_queue" r.ch).length = 1 ∧
      (samplesNamed "dynomite_peer_out_queue" r.ch).length = 1 ∧
      (samplesNamed "dynomite_remote_peer_in_queue" r.ch).length = 1 ∧
      (samplesNamed "dynomite_remote_peer_out_queue" r.ch).length = 1 ∧
      (samplesNamed "dynomite_alloc_msgs" r.ch).length = 1 ∧
      (samplesNamed "dynomite_free_msgs" r.ch).length = 1 ∧
      (samplesNamed "dynomite_alloc_mbufs" r.ch).length = 1 ∧
      (samplesNamed "dynomite_free_mbufs" r.ch).length = 1 ∧
      (samplesNamed "dynomite_dyn_memory" r.ch).length = 1) :=
  ⟨rfl, collect_decoded_emits_35_samples (servingUpstream uptimeDoc) defaultAddress
    defaultTimeout stderrLogger uptimeDoc rfl⟩

/-! ## C3: the uptime sample -/

/-- C3, as stated, fails: for the document `"uptime": 9007199254740993,
"rack": "us-east-1a"` the one sample named `dynomite_uptime_seconds` has the value
`9007199254740992`, which is not the uptime of the document: the code sends
`float64(stats.Uptime)`, and `2^53 + 1` is not a `float64`. -/
theorem collect_uptime_value_is_rounded :
    ∃ r, Exporter.Collect (servingUpstream bigUptimeDoc)
        (Run.start (New defaultAddress defaultTimeout stderrLogger)) = .ok r ∧
      bigUptimeDoc.Uptime = 9007199254740993 ∧
      (samplesNamed "dynomite_uptime_seconds" r.ch).map (fun m => m.value) =
        [Float64.ofInt 9007199254740992] ∧
      Float64.ofInt 9007199254740992 ≠ Float64.ofInt bigUptimeDoc.Uptime := by
  obtain ⟨
    h_up, h_uptime, h_latency, h_payload_size, h_cross_region_rtt, h_cross_zone_latency,
    h_server_latency, h_server_queue_wait, h_cross_region_queue_wait, h_client_out_queue,
    h_server_in_queue, h_server_out_queue, h_dnode_client_out_queue, h_peer_in_queue,
    h_peer_out_queue, h_remote_peer_in_queue, h_remote_peer_out_queue, h_alloc_msgs,
    h_free_msgs, h_alloc_mbufs, h_free_mbufs, h_dyn_memory ⟩ :=
    New_descs defaultAddress defaultTimeout stderrLogger
  have hv := float64_rounds_at_two_pow_53_add_one
  refine ⟨_, Collect_decoded (servingUpstream bigUptimeDoc) defaultAddress defaultTimeout
    stderrLogger bigUptimeDoc rfl, rfl, ?_, by decide⟩
  generalize New defaultAddress defaultTimeout stderrLogger = e at *
  simp [samplesNamed, Metric.name, bigUptimeDoc, *]

/-- C3, amended. Whenever `GetMetrics` returns a document with uptime `u` and rack `r` and
no error, `Collect` sends exactly one sample named `dynomite_uptime_seconds`; its value is
`float64(u)`, which is `u` itself whenever the magnitude of `u` is at most `2^53`, and
its only label is `rack` with value `r`. -/
theorem collect_uptime_sample (world : Upstream) (a : String) (t : Duration) (l : Logger)
    (stats : DynomiteMetrics) (h : GetMetrics world a = (stats, none)) :
    ∃ r m, Exporter.Collect world (Run.start (New a t l)) = .ok r ∧
      samplesNamed "dynomite_uptime_seconds" r.ch = [m] ∧
      m.value = float64 stats.Uptime ∧
      (stats.Uptime.natAbs ≤ 2 ^ 53 → m.value = Float64.ofInt stats.Uptime) ∧
      m.labelValues = [stats.Rack] ∧
      m.labelPairs = [("rack", stats.Rack)] := by
  obtain ⟨
    h_up, h_uptime, h_latency, h_payload_size, h_cross_region_rtt, h_cross_zone_latency,
    h_server_latency, h_server_queue_wait, h_cross_region_queue_wait, h_client_out_queue,
    h_server_in_queue, h_server_out_queue, h_dnode_client_out_queue, h_peer_in_queue,
    h_peer_out_queue, h_remote_peer_in_queue, h_remote_peer_out_queue, h_alloc_msgs,
    h_free_msgs, h_alloc_mbufs, h_free_mbufs, h_dyn_memory ⟩ :=
    New_descs a t l
  refine ⟨_, ⟨(New a t l).uptime, .CounterValue, float64 stats.Uptime, [stats.Rack]⟩,
    Collect_decoded world a t l stats h, ?_, rfl, fun hu => float64_exact _ hu, rfl, ?_⟩
  · generalize New a t l = e at *
    simp [samplesNamed, Metric.name, *]
  · simp [Metric.labelPairs, h_uptime]

/-- C3, amended, at the input of the specification: `"uptime": 12345,
"rack": "us-east-1a"` gives the value 12345 with `rack="us-east-1a"`. -/
theorem collect_uptime_sample_witness :
    GetMetrics (servingUpstream uptimeDoc) defaultAddress = (uptimeDoc, none) ∧
    ∃ r m, Exporter.Collect (servingUpstream uptimeDoc)
        (Run.start (New defaultAddress defaultTimeout stderrLogger)) = .ok r ∧
      samplesNamed "dynomite_uptime_seconds" r.ch = [m] ∧
      m.value = float64 12345 ∧ m.value = Float64.ofInt 12345 ∧
      m.labelValues = ["us-east-1a"] ∧
      m.labelPairs = [("rack", "us-east-1a")] := by
  obtain ⟨r, m, hc, hs, hv, hb, hl, hp⟩ :=
    collect_uptime_sample (servingUpstream uptimeDoc) defaultAddress defaultTimeout
      stderrLogger uptimeDoc rfl
  exact ⟨rfl, r, m, hc, hs, hv, hb (by decide), hl, hp⟩


/-! ## C4: the latency samples -/

/-- C4, as stated, fails. For the document `"latency_99th": 42, "latency_mean": 7,
"rack": "r1"` the samples named `dynomite_latency` are five, not two: the types `max`,
`999` and `95` are sent as well, with the value of their (absent, hence zero) fields. And
for the document `"latency_99th": 9007199254740993, "latency_mean": 7, "rack": "r1"` the
sample of type `99` has the value `9007199254740992`, which is not `latency_99th`. -/
theorem collect_latency_samples_are_five :
    (∃ r, Exporter.Collect (servingUpstream latencyDoc)
        (Run.start (New defaultAddress defaultTimeout stderrLogger)) = .ok r ∧
      (samplesNamed "dynomite_latency" r.ch).map (fun m => (m.labelPairs, m.value)) =
        [([("rack", "r1"), ("type", "max")], float64 0),
         ([("rack", "r1"), ("type", "999")], float64 0),
         ([("rack", "r1"), ("type", "99")], float64 42),
         ([("rack", "r1"), ("type", "95")], float64 0),
         ([("rack", "r1"), ("type", "50")], float64 7)] ∧
      (samplesNamed "dynomite_latency" r.ch).length ≠ 2) ∧
    ∃ r, Exporter.Collect (servingUpstream bigLatencyDoc)
        (Run.start (New defaultAddress defaultTimeout stderrLogger)) = .ok r ∧
      bigLatencyDoc.Latency99Th = 9007199254740993 ∧
      ((samplesNamed "dynomite_latency" r.ch).filter
        (fun m => m.labelPairs == [("rack", "r1"), ("type", "99")])).map
          (fun m => m.value) = [Float64.ofInt 9007199254740992] ∧
      Float64.ofInt 9007199254740992 ≠ Float64.ofInt bigLatencyDoc.Latency99Th := by
  obtain ⟨
    h_up, h_uptime, h_latency, h_payload_size, h_cross_region_rtt, h_cross_zone_latency,
    h_server_latency, h_server_queue_wait, h_cross_region_queue_wait, h_client_out_queue,
    h_server_in_queue, h_server_out_queue, h_dnode_client_out_queue, h_peer_in_queue,
    h_peer_out_queue, h_remote_peer_in_queue, h_remote_peer_out_queue, h_alloc_msgs,
    h_free_msgs, h_alloc_mbufs, h_free_mbufs, h_dyn_memory ⟩ :=
    New_descs defaultAddress defaultTimeout stderrLogger
  have hv := float64_rounds_at_two_pow_53_add_one
  refine ⟨⟨_, Collect_decoded (servingUpstream latencyDoc) defaultAddress defaultTimeout
    stderrLogger latencyDoc rfl, ?_⟩, _, Collect_decoded (servingUpstream bigLatencyDoc)
    defaultAddress defaultTimeout stderrLogger bigLatencyDoc rfl, rfl, ?_, by decide⟩
  · generalize New defaultAddress defaultTimeout stderrLogger = e at *
    simp [samplesNamed, Metric.name, Metric.labelPairs, latencyDoc, *]
  · generalize New defaultAddress defaultTimeout stderrLogger = e at *
    simp [samplesNamed, Metric.name, Metric.labelPairs, bigLatencyDoc, *]

/-- C4, amended. Whenever `GetMetrics` returns a document with rack `r`,
`latency_99th = a` and `latency_mean = b` and no error, the samples named
`dynomite_latency` that `Collect` sends are five; exactly one of them has the labels
`rack=r, type="99"`, and its value is `float64(a)`, which is `a` itself whenever the
magnitude of `a` is at most `2^53`; exactly one has the labels `rack=r, type="50"`, and
its value is `float64(b)`, which is `b` itself whenever the magnitude of `b` is at most
`2^53`. -/
theorem collect_latency_99_and_50 (world : Upstream) (a : String) (t : Duration) (l : Logger)
    (stats : DynomiteMetrics) (h : GetMetrics world a = (stats, none)) :
    ∃ r m99 m50, Exporter.Collect world (Run.start (New a t l)) = .ok r ∧
      (samplesNamed "dynomite_latency" r.ch).length = 5 ∧
      (samplesNamed "dynomite_latency" r.ch).filter
        (fun m => m.labelPairs == [("rack", stats.Rack), ("type", "99")]) = [m99] ∧
      m99.value = float64 stats.Latency99Th ∧
      (stats.Latency99Th.natAbs ≤ 2 ^ 53 → m99.value = Float64.ofInt stats.Latency99Th) ∧
      (samplesNamed "dynomite_latency" r.ch).filter
        (fun m => m.labelPairs == [("rack", stats.Rack), ("type", "50")]) = [m50] ∧
      m50.value = float64 stats.LatencyMean ∧
      (stats.LatencyMean.natAbs ≤ 2 ^ 53 → m50.value = Float64.ofInt stats.LatencyMean) := by
  obtain ⟨
    h_up, h_uptime, h_latency, h_payload_size, h_cross_region_rtt, h_cross_zone_latency,
    h_server_latency, h_server_queue_wait, h_cross_region_queue_wait, h_client_out_queue,
    h_server_in_queue, h_server_out_queue, h_dnode_client_out_queue, h_peer_in_queue,
    h_peer_out_queue, h_remote_peer_in_queue, h_remote_peer_out_queue, h_alloc_msgs,
    h_free_msgs, h_alloc_mbufs, h_free_mbufs, h_dyn_memory ⟩ :=
    New_descs a t l
  refine ⟨_, ⟨(New a t l).latency, .CounterValue, float64 stats.Latency99Th, [stats.Rack, "99"]⟩,
    ⟨(New a t l).latency, .CounterValue, float64 stats.LatencyMean, [stats.Rack, "50"]⟩,
    Collect_decoded world a t l stats h, ?_, ?_, rfl, fun ha => float64_exact _ ha, ?_, rfl,
    fun hb => float64_exact _ hb⟩
  · generalize New a t l = e at *
    simp [samplesNamed, Metric.name, *]
  · generalize New a t l = e at *
    simp [samplesNamed, Metric.name, Metric.labelPairs, *]
  · generalize New a t l = e at *
    simp [samplesNamed, Metric.name, Metric.labelPairs, *]

/-- C4, amended, at the input of the specification: `"latency_99th": 42,
"latency_mean": 7, "rack": "r1"` gives the values 42 and 7. -/
theorem collect_latency_99_and_50_witness :
    GetMetrics (servingUpstream latencyDoc) defaultAddress = (latencyDoc, none) ∧
    ∃ r m99 m50, Exporter.Collect (servingUpstream latencyDoc)
        (Run.start (New defaultAddress defaultTimeout stderrLogger)) = .ok r ∧
      (samplesNamed "dynomite_latency" r.ch).length = 5 ∧
      (samplesNamed "dynomite_latency" r.ch).filter
        (fun m => m.labelPairs == [("rack", "r1"), ("type", "99")]) = [m99] ∧
      m99.value = float64 42 ∧ m99.value = Float64.ofInt 42 ∧
      (samplesNamed "dynomite_latency" r.ch).filter
        (fun m => m.labelPairs == [("rack", "r1"), ("type", "50")]) = [m50] ∧
      m50.value = float64 7 ∧ m50.value = Float64.ofInt 7 := by
  obtain ⟨r, m99, m50, hc, h5, hf99, hv99, hb99, hf50, hv50, hb50⟩ :=
    collect_latency_99_and_50 (servingUpstream latencyDoc) defaultAddress defaultTimeout
      stderrLogger latencyDoc rfl
  exact ⟨rfl, r, m99, m50, hc, h5, hf99, hv99, hb99 (by decide), hf50, hv50,
    hb50 (by decide)⟩


/-! ## C5: the kinds of the latency and payload-size samples -/

/-- C5, as stated, fails: for the document `"latency_99th": 42, "latency_mean": 7,
"rack": "r1"` the five samples named `dynomite_payload_size` have kind Gauge, not
Counter. -/
theorem collect_payload_size_is_gauge :
    ∃ r, Exporter.Collect (servingUpstream latencyDoc)
        (Run.start (New defaultAddress defaultTimeout stderrLogger)) = .ok r ∧
      (samplesNamed "dynomite_payload_size" r.ch).map (fun m => m.valueType) =
        [.GaugeValue, .GaugeValue, .GaugeValue, .GaugeValue, .GaugeValue] ∧
      ¬ ∀ m ∈ samplesNamed "dynomite_payload_size" r.ch, m.valueType = .CounterValue := by
  obtain ⟨
    h_up, h_uptime, h_latency, h_payload_size, h_cross_region_rtt, h_cross_zone_latency,
    h_server_latency, h_server_queue_wait, h_cross_region_queue_wait, h_client_out_queue,
    h_server_in_queue, h_server_out_queue, h_dnode_client_out_queue, h_peer_in_queue,
    h_peer_out_queue, h_remote_peer_in_queue, h_remote_peer_out_queue, h_alloc_msgs,
    h_free_msgs, h_alloc_mbufs, h_free_mbufs, h_dyn_memory ⟩ :=
    New_descs defaultAddress defaultTimeout stderrLogger
  refine ⟨_, Collect_decoded (servingUpstream latencyDoc) defaultAddress defaultTimeout
    stderrLogger latencyDoc rfl, ?_⟩
  generalize New defaultAddress defaultTimeout stderrLogger = e at *
  simp [samplesNamed, Metric.name, *]

/-- C5, amended. Whenever `GetMetrics` returns a document and no error, every sample named
`dynomite_latency` that `Collect` sends has kind Counter, and every sample named
`dynomite_payload_size` has kind Gauge. -/
theorem collect_latency_counter_payload_gauge (world : Upstream) (a : String) (t : Duration)
    (l : Logger) (stats : DynomiteMetrics) (h : GetMetrics world a = (stats, none)) :
    ∃ r, Exporter.Collect world (Run.start (New a t l)) = .ok r ∧
      (∀ m ∈ samplesNamed "dynomite_latency" r.ch, m.valueType = .CounterValue) ∧
      (∀ m ∈ samplesNamed "dynomite_payload_size" r.ch, m.valueType = .GaugeValue) := by
  obtain ⟨
    h_up, h_uptime, h_latency, h_payload_size, h_cross_region_rtt, h_cross_zone_latency,
    h_server_latency, h_server_queue_wait, h_cross_region_queue_wait, h_client_out_queue,
    h_server_in_queue, h_server_out_queue, h_dnode_client_out_queue, h_peer_in_queue,
    h_peer_out_queue, h_remote_peer_in_queue, h_remote_peer_out_queue, h_alloc_msgs,
    h_free_msgs, h_alloc_mbufs, h_free_mbufs, h_dyn_memory ⟩ :=
    New_descs a t l
  refine ⟨_, Collect_decoded world a t l stats h, ?_⟩
  generalize New a t l = e at *
  simp [samplesNamed, Metric.name, *]

/-- C5, amended, at a concrete input. -/
theorem collect_latency_counter_payload_gauge_witness :
    GetMetrics (servingUpstream latencyDoc) defaultAddress = (latencyDoc, none) ∧
    ∃ r, Exporter.Collect (servingUpstream latencyDoc)
        (Run.start (New defaultAddress defaultTimeout stderrLogger)) = .ok r ∧
      (∀ m ∈ samplesNamed "dynomite_latency" r.ch, m.valueType = .CounterValue) ∧
      (∀ m ∈ samplesNamed "dynomite_payload_size" r.ch, m.valueType = .GaugeValue) :=
  ⟨rfl, collect_latency_counter_payload_gauge (servingUpstream latencyDoc) defaultAddress
    defaultTimeout stderrLogger latencyDoc rfl⟩


/-! ## C6: the catalog that `Describe` sends -/

/-- C6. For every exporter built by `New`, `Describe` sends exactly 22 definitions; their
names are the namespace `dynomite`, an underscore, and in this order up, uptime_seconds,
latency, payload_size, cross_region_rtt, cross_zone_latency, server_latency,
server_queue_wait, cross_region_queue_wait, client_out_queue, server_in_queue,
server_out_queue, dnode_client_out_queue, peer_in_queue, peer_out_queue,
remote_peer_in_queue, remote_peer_out_queue, alloc_msgs, free_msgs, alloc_mbufs, free_mbufs,
dyn_memory. The definitions are the same for every address, timeout and logger, and
whatever the upstream does: `Collect` returns an exporter equal to the one it was called
on, so `Describe` sends the same after `Collect` as before. -/
theorem describe_sends_the_fixed_catalog (world : Upstream) (a : String) (t : Duration)
    (l : Logger) :
    ((New a t l).Describe []).length = 22 ∧
    ((New a t l).Describe []).map (fun d => d.fqName) =
      [
        "up", "uptime_seconds", "latency", "payload_size", "cross_region_rtt",
        "cross_zone_latency", "server_latency", "server_queue_wait", "cross_region_queue_wait",
        "client_out_queue", "server_in_queue", "server_out_queue", "dnode_client_out_queue",
        "peer_in_queue", "peer_out_queue", "remote_peer_in_queue", "remote_peer_out_queue",
        "alloc_msgs", "free_msgs", "alloc_mbufs", "free_mbufs", "dyn_memory"].map
        (fun s => Namespace ++ "_" ++ s) ∧
    ((New a t l).Describe []).map (fun d => d.variableLabels) =
      [
        [], ["rack"], ["rack", "type"], ["rack", "type"], ["rack", "type"], ["rack", "type"],
        ["rack", "type"], ["rack", "type"], ["rack", "type"], ["rack", "type"],
        ["rack", "type"], ["rack", "type"], ["rack", "type"], ["rack", "type"],
        ["rack", "type"], ["rack", "type"], ["rack", "type"], ["rack"], ["rack"], ["rack"],
        ["rack"], ["rack"]] ∧
    (∀ (a' : String) (t' : Duration) (l' : Logger),
      (New a' t' l').Describe [] = (New a t l).Describe []) ∧
    ∃ r, Exporter.Collect world (Run.start (New a t l)) = .ok r ∧ r.e = New a t l ∧
      r.e.Describe [] = (New a t l).Describe [] := by
  refine ⟨?_, ?_, ?_, ?_, ?_⟩
  · rw [Describe_New]; rfl
  · rw [Describe_New]; decide
  · rw [Describe_New]; rfl
  · intro a' t' l'
    rw [Describe_New, Describe_New]
  · rcases hg : GetMetrics world a with ⟨stats, _ | err⟩
    · exact ⟨_, Collect_decoded world a t l stats hg, rfl, rfl⟩
    · exact ⟨_, Collect_failed world a t l stats err hg, rfl, rfl⟩

/-! ## C7: the request target -/

/-- C7 fails on the code at the default address: `Collect` hands the configured address
`localhost:22222` to `http.Get` as it is. On a node that answers the GET of
`http://localhost:22222`, the target without scheme is rejected and `Collect` sends only
`dynomite_up` with value 0 and logs the error, while `GetMetrics` on `http://` followed by
the address returns the document. -/
theorem collect_fetches_address_without_scheme :
    ∃ r, Exporter.Collect (localNode uptimeDoc)
        (Run.start (New defaultAddress defaultTimeout stderrLogger)) = .ok r ∧
      r.ch.map (fun m => (m.name, m.value)) = [("dynomite_up", float64 0)] ∧
      r.log = [⟨stderrLogger, "error",
        ["msg", "Failed to connect to dynomite", "err", "unsupported protocol scheme"]⟩] ∧
      GetMetrics (localNode uptimeDoc) ("http://" ++ defaultAddress) = (uptimeDoc, none) := by
  have hup := (New_descs defaultAddress defaultTimeout stderrLogger).1
  refine ⟨_, Collect_failed (localNode uptimeDoc) defaultAddress defaultTimeout stderrLogger
    {} "unsupported protocol scheme" rfl, ?_, rfl, ?_⟩
  · simp only [List.map, Metric.name, hup]
  · rfl

/-! ## C8: the timeout -/

/-- C8 fails on the code: `Collect` hands only the address to `GetMetrics`, and the
timeout of the exporter reaches no fetch. With the timeout of one second, on an upstream
that answers after five seconds, `Collect` does not take the failure path: it sends the 35
samples of a successful scrape, `dynomite_up` with value 1. -/
theorem collect_does_not_apply_timeout :
    (New "http://localhost:22222" defaultTimeout stderrLogger).timeout <
      ((slowUpstream uptimeDoc).httpGet "http://localhost:22222").elapsed ∧
    ∃ r, Exporter.Collect (slowUpstream uptimeDoc)
        (Run.start (New "http://localhost:22222" defaultTimeout stderrLogger)) = .ok r ∧
      r.ch.length = 35 ∧
      (samplesNamed "dynomite_up" r.ch).map (fun m => m.value) = [float64 1] := by
  obtain ⟨
    h_up, h_uptime, h_latency, h_payload_size, h_cross_region_rtt, h_cross_zone_latency,
    h_server_latency, h_server_queue_wait, h_cross_region_queue_wait, h_client_out_queue,
    h_server_in_queue, h_server_out_queue, h_dnode_client_out_queue, h_peer_in_queue,
    h_peer_out_queue, h_remote_peer_in_queue, h_remote_peer_out_queue, h_alloc_msgs,
    h_free_msgs, h_alloc_mbufs, h_free_mbufs, h_dyn_memory ⟩ :=
    New_descs "http://localhost:22222" defaultTimeout stderrLogger
  refine ⟨by decide, _, Collect_decoded (slowUpstream uptimeDoc) "http://localhost:22222"
    defaultTimeout stderrLogger uptimeDoc rfl, ?_⟩
  generalize New "http://localhost:22222" defaultTimeout stderrLogger = e at *
  simp [samplesNamed, Metric.name, *]


/-! ## C9: samples match their definitions -/

/-- C9. For every upstream, `Collect` on an exporter built by `New` returns without a panic,
and every sample it sends references a definition that `Describe` sends for that
exporter, a definition free of error, with exactly as many label values as the definition
has label names, matched in order: no label for up; `rack`, with the rack of the document,
for uptime_seconds, alloc_msgs, free_msgs, alloc_mbufs, free_mbufs and dyn_memory; `rack`,
with the rack of the document, then `type` for every other family. -/
theorem collect_samples_match_definitions (world : Upstream) (a : String) (t : Duration)
    (l : Logger) :
    ∃ r, Exporter.Collect world (Run.start (New a t l)) = .ok r ∧
      ∀ m ∈ r.ch,
        m.desc ∈ (New a t l).Describe [] ∧ m.desc.err = none ∧
        m.labelValues.length = m.desc.variableLabels.length ∧
        ((m.name = "dynomite_up" ∧ m.labelPairs = []) ∨
         (m.name ∈ [
            "dynomite_uptime_seconds", "dynomite_alloc_msgs", "dynomite_free_msgs",
            "dynomite_alloc_mbufs", "dynomite_free_mbufs", "dynomite_dyn_memory"] ∧
           m.labelPairs = [("rack", (GetMetrics world a).1.Rack)]) ∨
         (m.name ∈ [
            "dynomite_latency", "dynomite_payload_size", "dynomite_cross_region_rtt",
            "dynomite_cross_zone_latency", "dynomite_server_latency",
            "dynomite_server_queue_wait", "dynomite_cross_region_queue_wait",
            "dynomite_client_out_queue", "dynomite_server_in_queue",
            "dynomite_server_out_queue", "dynomite_dnode_client_out_queue",
            "dynomite_peer_in_queue", "dynomite_peer_out_queue",
            "dynomite_remote_peer_in_queue", "dynomite_remote_peer_out_queue"] ∧
           ∃ ty, m.labelPairs = [("rack", (GetMetrics world a).1.Rack), ("type", ty)])) := by
  have hd := Describe_New a t l
  obtain ⟨
    h_up, h_uptime, h_latency, h_payload_size, h_cross_region_rtt, h_cross_zone_latency,
    h_server_latency, h_server_queue_wait, h_cross_region_queue_wait, h_client_out_queue,
    h_server_in_queue, h_server_out_queue, h_dnode_client_out_queue, h_peer_in_queue,
    h_peer_out_queue, h_remote_peer_in_queue, h_remote_peer_out_queue, h_alloc_msgs,
    h_free_msgs, h_alloc_mbufs, h_free_mbufs, h_dyn_memory ⟩ :=
    New_descs a t l
  rcases hg : GetMetrics world a with ⟨stats, _ | err⟩
  · refine ⟨_, Collect_decoded world a t l stats hg, ?_⟩
    generalize New a t l = e at *
    simp [Metric.name, Metric.labelPairs, *]
  · refine ⟨_, Collect_failed world a t l stats err hg, ?_⟩
    generalize New a t l = e at *
    simp [Metric.name, Metric.labelPairs, *]

/-! ## C10: the type labels of each family -/

/-- C10. Whenever `GetMetrics` returns a document and no error, the values of the label
`type` sent for each family with two labels are fixed, whatever the document holds: in
emission order max, 999, 99, 95, 50 for latency and for payload_size; 99, 50 for
cross_region_rtt, cross_zone_latency, server_latency, server_queue_wait and
cross_region_queue_wait; 99 alone for each of the eight queue families. Each list is free
of repetition, so each type occurs once per family. -/
theorem collect_type_labels_per_family (world : Upstream) (a : String) (t : Duration)
    (l : Logger) (stats : DynomiteMetrics) (h : GetMetrics world a = (stats, none)) :
    ∃ r, Exporter.Collect world (Run.start (New a t l)) = .ok r ∧
      (samplesNamed "dynomite_latency" r.ch).map (fun m => m.label "type") =
        [some "max", some "999", some "99", some "95", some "50"] ∧
      (samplesNamed "dynomite_payload_size" r.ch).map (fun m => m.label "type") =
        [some "max", some "999", some "99", some "95", some "50"] ∧
      (samplesNamed "dynomite_cross_region_rtt" r.ch).map (fun m => m.label "type") =
        [some "99", some "50"] ∧
      (samplesNamed "dynomite_cross_zone_latency" r.ch).map (fun m => m.label "type") =
        [some "99", some "50"] ∧
      (samplesNamed "dynomite_server_latency" r.ch).map (fun m => m.label "type") =
        [some "99", some "50"] ∧
      (samplesNamed "dynomite_server_queue_wait" r.ch).map (fun m => m.label "type") =
        [some "99", some "50"] ∧
      (samplesNamed "dynomite_cross_region_queue_wait" r.ch).map (fun m => m.label "type") =
        [some "99", some "50"] ∧
      (samplesNamed "dynomite_client_out_queue" r.ch).map (fun m => m.label "type") =
        [some "99"] ∧
      (samplesNamed "dynomite_server_in_queue" r.ch).map (fun m => m.label "type") =
        [some "99"] ∧
      (samplesNamed "dynomite_server_out_queue" r.ch).map (fun m => m.label "type") =
        [some "99"] ∧
      (samplesNamed "dynomite_dnode_client_out_queue" r.ch).map (fun m => m.label "type") =
        [some "99"] ∧
      (samplesNamed "dynomite_peer_in_queue" r.ch).map (fun m => m.label "type") =
        [some "99"] ∧
      (samplesNamed "dynomite_peer_out_queue" r.ch).map (fun m => m.label "type") =
        [some "99"] ∧
      (samplesNamed "dynomite_remote_peer_in_queue" r.ch).map (fun m => m.label "type") =
        [some "99"] ∧
      (samplesNamed "dynomite_remote_peer_out_queue" r.ch).map (fun m => m.label "type") =
        [some "99"] := by
  obtain ⟨
    h_up, h_uptime, h_latency, h_payload_size, h_cross_region_rtt, h_cross_zone_latency,
    h_server_latency, h_server_queue_wait, h_cross_region_queue_wait, h_client_out_queue,
    h_server_in_queue, h_server_out_queue, h_dnode_client_out_queue, h_peer_in_queue,
    h_peer_out_queue, h_remote_peer_in_queue, h_remote_peer_out_queue, h_alloc_msgs,
    h_free_msgs, h_alloc_mbufs, h_free_mbufs, h_dyn_memory ⟩ :=
    New_descs a t l
  refine ⟨_, Collect_decoded world a t l stats h, ?_⟩
  generalize New a t l = e at *
  simp [samplesNamed, Metric.name, Metric.label, Metric.labelPairs, List.lookup, *]

/-- C10 at a concrete input. -/
theorem collect_type_labels_per_family_witness :
    GetMetrics (servingUpstream latencyDoc) defaultAddress = (latencyDoc, none) ∧
    ∃ r, Exporter.Collect (servingUpstream latencyDoc)
        (Run.start (New defaultAddress defaultTimeout stderrLogger)) = .ok r ∧
      (samplesNamed "dynomite_latency" r.ch).map (fun m => m.label "type") =
        [some "max", some "999", some "99", some "95", some "50"] ∧
      (samplesNamed "dynomite_payload_size" r.ch).map (fun m => m.label "type") =
        [some "max", some "999", some "99", some "95", some "50"] ∧
      (samplesNamed "dynomite_cross_region_rtt" r.ch).map (fun m => m.label "type") =
        [some "99", some "50"] ∧
      (samplesNamed "dynomite_cross_zone_latency" r.ch).map (fun m => m.label "type") =
        [some "99", some "50"] ∧
      (samplesNamed "dynomite_server_latency" r.ch).map (fun m => m.label "type") =
        [some "99", some "50"] ∧
      (samplesNamed "dynomite_server_queue_wait" r.ch).map (fun m => m.label "type") =
        [some "99", some "50"] ∧
      (samplesNamed "dynomite_cross_region_queue_wait" r.ch).map (fun m => m.label "type") =
        [some "99", some "50"] ∧
      (samplesNamed "dynomite_client_out_queue" r.ch).map (fun m => m.label "type") =
        [some "99"] ∧
      (samplesNamed "dynomite_server_in_queue" r.ch).map (fun m => m.label "type") =
        [some "99"] ∧
      (samplesNamed "dynomite_server_out_queue" r.ch).map (fun m => m.label "type") =
        [some "99"] ∧
      (samplesNamed "dynomite_dnode_client_out_queue" r.ch).map (fun m => m.label "type") =
        [some "99"] ∧
      (samplesNamed "dynomite_peer_in_queue" r.ch).map (fun m => m.label "type") =
        [some "99"] ∧
      (samplesNamed "dynomite_peer_out_queue" r.ch).map (fun m => m.label "type") =
        [some "99"] ∧
      (samplesNamed "dynomite_remote_peer_in_queue" r.ch).map (fun m => m.label "type") =
        [some "99"] ∧
      (samplesNamed "dynomite_remote_peer_out_queue" r.ch).map (fun m => m.label "type") =
        [some "99"] :=
  ⟨rfl, collect_type_labels_per_family (servingUpstream latencyDoc) defaultAddress
    defaultTimeout stderrLogger latencyDoc rfl⟩


/-! ## C11: the field each sample reads -/

/-- The family of each metric name of the catalog. -/
theorem family_of_name :
    String.drop "dynomite_uptime_seconds" (Namespace.length + 1) = "uptime_seconds" ∧
    String.drop "dynomite_latency" (Namespace.length + 1) = "latency" ∧
    String.drop "dynomite_payload_size" (Namespace.length + 1) = "payload_size" ∧
    String.drop "dynomite_cross_region_rtt" (Namespace.length + 1) = "cross_region_rtt" ∧
    String.drop "dynomite_cross_zone_latency" (Namespace.length + 1) = "cross_zone_latency" ∧
    String.drop "dynomite_server_latency" (Namespace.length + 1) = "server_latency" ∧
    String.drop "dynomite_server_queue_wait" (Namespace.length + 1) = "server_queue_wait" ∧
    String.drop "dynomite_cross_region_queue_wait" (Namespace.length + 1) = "cross_region_queue_wait" ∧
    String.drop "dynomite_client_out_queue" (Namespace.length + 1) = "client_out_queue" ∧
    String.drop "dynomite_server_in_queue" (Namespace.length + 1) = "server_in_queue" ∧
    String.drop "dynomite_server_out_queue" (Namespace.length + 1) = "server_out_queue" ∧
    String.drop "dynomite_dnode_client_out_queue" (Namespace.length + 1) = "dnode_client_out_queue" ∧
    String.drop "dynomite_peer_in_queue" (Namespace.length + 1) = "peer_in_queue" ∧
    String.drop "dynomite_peer_out_queue" (Namespace.length + 1) = "peer_out_queue" ∧
    String.drop "dynomite_remote_peer_in_queue" (Namespace.length + 1) = "remote_peer_in_queue" ∧
    String.drop "dynomite_remote_peer_out_queue" (Namespace.length + 1) = "remote_peer_out_queue" ∧
    String.drop "dynomite_alloc_msgs" (Namespace.length + 1) = "alloc_msgs" ∧
    String.drop "dynomite_free_msgs" (Namespace.length + 1) = "free_msgs" ∧
    String.drop "dynomite_alloc_mbufs" (Namespace.length + 1) = "alloc_mbufs" ∧
    String.drop "dynomite_free_mbufs" (Namespace.length + 1) = "free_mbufs" ∧
    String.drop "dynomite_dyn_memory" (Namespace.length + 1) = "dyn_memory" := by
  decide

/-- The JSON key that the specification assigns to each family and type that the code
sends. -/
theorem specKey_table :
    specKey "uptime_seconds" none = some "uptime" ∧
    specKey "latency" (some "max") = some "latency_max" ∧
    specKey "latency" (some "999") = some "latency_999th" ∧
    specKey "latency" (some "99") = some "latency_99th" ∧
    specKey "latency" (some "95") = some "latency_95th" ∧
    specKey "latency" (some "50") = some "latency_mean" ∧
    specKey "payload_size" (some "max") = some "payload_size_max" ∧
    specKey "payload_size" (some "999") = some "payload_size_999th" ∧
    specKey "payload_size" (some "99") = some "payload_size_99th" ∧
    specKey "payload_size" (some "95") = some "payload_size_95th" ∧
    specKey "payload_size" (some "50") = some "payload_size_mean" ∧
    specKey "cross_region_rtt" (some "99") = some "99_cross_region_rtt" ∧
    specKey "cross_region_rtt" (some "50") = some "average_cross_region_rtt" ∧
    specKey "cross_zone_latency" (some "99") = some "99_cross_zone_latency" ∧
    specKey "cross_zone_latency" (some "50") = some "average_cross_zone_latency" ∧
    specKey "server_latency" (some "99") = some "99_server_latency" ∧
    specKey "server_latency" (some "50") = some "average_server_latency" ∧
    specKey "server_queue_wait" (some "99") = some "99_server_queue_wait" ∧
    specKey "server_queue_wait" (some "50") = some "average_server_queue_wait" ∧
    specKey "cross_region_queue_wait" (some "99") = some "99_cross_region_queue_wait" ∧
    specKey "cross_region_queue_wait" (some "50") = some "average_cross_region_queue_wait" ∧
    specKey "client_out_queue" (some "99") = some "client_out_queue_99" ∧
    specKey "server_in_queue" (some "99") = some "server_in_queue_99" ∧
    specKey "server_out_queue" (some "99") = some "server_out_queue_99" ∧
    specKey "dnode_client_out_queue" (some "99") = some "dnode_client_out_queue_99" ∧
    specKey "peer_in_queue" (some "99") = some "peer_in_queue_99" ∧
    specKey "peer_out_queue" (some "99") = some "peer_out_queue_99" ∧
    specKey "remote_peer_in_queue" (some "99") = some "remote_peer_in_queue_99" ∧
    specKey "remote_peer_out_queue" (some "99") = some "remote_peer_out_queue_99" ∧
    specKey "alloc_msgs" none = some "alloc_msgs" ∧
    specKey "free_msgs" none = some "free_msgs" ∧
    specKey "alloc_mbufs" none = some "alloc_mbufs" ∧
    specKey "free_mbufs" none = some "free_mbufs" ∧
    specKey "dyn_memory" none = some "dyn_memory" := by
  decide

/-- The integer field behind each JSON key that a sample reads. -/
theorem intField_table (stats : DynomiteMetrics) :
    stats.intField "uptime" = some stats.Uptime ∧
    stats.intField "latency_max" = some stats.LatencyMax ∧
    stats.intField "latency_999th" = some stats.Latency999Th ∧
    stats.intField "latency_99th" = some stats.Latency99Th ∧
    stats.intField "latency_95th" = some stats.Latency95Th ∧
    stats.intField "latency_mean" = some stats.LatencyMean ∧
    stats.intField "payload_size_max" = some stats.PayloadSizeMax ∧
    stats.intField "payload_size_999th" = some stats.PayloadSize999Th ∧
    stats.intField "payload_size_99th" = some stats.PayloadSize99Th ∧
    stats.intField "payload_size_95th" = some stats.PayloadSize95Th ∧
    stats.intField "payload_size_mean" = some stats.PayloadSizeMean ∧
    stats.intField "99_cross_region_rtt" = some stats.Nine9CrossRegionRtt ∧
    stats.intField "average_cross_region_rtt" = some stats.AverageCrossRegionRtt ∧
    stats.intField "99_cross_zone_latency" = some stats.Nine9CrossZoneLatency ∧
    stats.intField "average_cross_zone_latency" = some stats.AverageCrossZoneLatency ∧
    stats.intField "99_server_latency" = some stats.Nine9ServerLatency ∧
    stats.intField "average_server_latency" = some stats.AverageServerLatency ∧
    stats.intField "99_server_queue_wait" = some stats.Nine9ServerQueueWait ∧
    stats.intField "average_server_queue_wait" = some stats.AverageServerQueueWait ∧
    stats.intField "99_cross_region_queue_wait" = some stats.Nine9CrossRegionQueueWait ∧
    stats.intField "average_cross_region_queue_wait" = some stats.AverageCrossRegionQueueWait ∧
    stats.intField "client_out_queue_99" = some stats.ClientOutQueue99 ∧
    stats.intField "server_in_queue_99" = some stats.ServerInQueue99 ∧
    stats.intField "server_out_queue_99" = some stats.ServerOutQueue99 ∧
    stats.intField "dnode_client_out_queue_99" = some stats.DnodeClientOutQueue99 ∧
    stats.intField "peer_in_queue_99" = some stats.PeerInQueue99 ∧
    stats.intField "peer_out_queue_99" = some stats.PeerOutQueue99 ∧
    stats.intField "remote_peer_in_queue_99" = some stats.RemotePeerInQueue99 ∧
    stats.intField "remote_peer_out_queue_99" = some stats.RemotePeerOutQueue99 ∧
    stats.intField "alloc_msgs" = some stats.AllocMsgs ∧
    stats.intField "free_msgs" = some stats.FreeMsgs ∧
    stats.intField "alloc_mbufs" = some stats.AllocMbufs ∧
    stats.intField "free_mbufs" = some stats.FreeMbufs ∧
    stats.intField "dyn_memory" = some stats.DynMemory :=
  ⟨rfl, rfl, rfl, rfl, rfl, rfl, rfl, rfl, rfl, rfl, rfl, rfl, rfl, rfl, rfl, rfl, rfl, rfl,
    rfl, rfl, rfl, rfl, rfl, rfl, rfl, rfl, rfl, rfl, rfl, rfl, rfl, rfl, rfl, rfl⟩

/-- Whenever `GetMetrics` returns a document and no error, every sample that `Collect`
sends, `dynomite_up` apart, carries the field `rack` of the document as the value of its
label `rack`, and its value is the conversion `float64` of the integer field whose JSON
key the specification assigns to the family and the type of the sample; the keys read by
the 34 samples are pairwise distinct. -/
theorem Collect_reads_fields (world : Upstream) (a : String) (t : Duration)
    (l : Logger) (stats : DynomiteMetrics) (h : GetMetrics world a = (stats, none)) :
    ∃ r, Exporter.Collect world (Run.start (New a t l)) = .ok r ∧
      (∀ m ∈ r.ch, m.name ≠ "dynomite_up" →
        m.label "rack" = stats.stringField "rack" ∧
        ((specKey m.family (m.label "type")).bind stats.intField).map float64 =
          some m.value) ∧
      ((r.ch.filter (fun m => m.name != "dynomite_up")).map
        (fun m => specKey m.family (m.label "type"))).Nodup := by
  obtain ⟨
    h_up, h_uptime, h_latency, h_payload_size, h_cross_region_rtt, h_cross_zone_latency,
    h_server_latency, h_server_queue_wait, h_cross_region_queue_wait, h_client_out_queue,
    h_server_in_queue, h_server_out_queue, h_dnode_client_out_queue, h_peer_in_queue,
    h_peer_out_queue, h_remote_peer_in_queue, h_remote_peer_out_queue, h_alloc_msgs,
    h_free_msgs, h_alloc_mbufs, h_free_mbufs, h_dyn_memory ⟩ :=
    New_descs a t l
  obtain ⟨
    f_uptime_seconds, f_latency, f_payload_size, f_cross_region_rtt, f_cross_zone_latency,
    f_server_latency, f_server_queue_wait, f_cross_region_queue_wait, f_client_out_queue,
    f_server_in_queue, f_server_out_queue, f_dnode_client_out_queue, f_peer_in_queue,
    f_peer_out_queue, f_remote_peer_in_queue, f_remote_peer_out_queue, f_alloc_msgs,
    f_free_msgs, f_alloc_mbufs, f_free_mbufs, f_dyn_memory ⟩ :=
    family_of_name
  obtain ⟨
    k0, k1, k2, k3, k4, k5, k6, k7, k8, k9, k10, k11, k12, k13, k14, k15, k16, k17, k18, k19,
    k20, k21, k22, k23, k24, k25, k26, k27, k28, k29, k30, k31, k32, k33 ⟩ :=
    specKey_table
  obtain ⟨
    v0, v1, v2, v3, v4, v5, v6, v7, v8, v9, v10, v11, v12, v13, v14, v15, v16, v17, v18, v19,
    v20, v21, v22, v23, v24, v25, v26, v27, v28, v29, v30, v31, v32, v33 ⟩ :=
    intField_table stats
  have hrack : stats.stringField "rack" = some stats.Rack := rfl
  refine ⟨_, Collect_decoded world a t l stats h, ?_, ?_⟩
  · generalize New a t l = e at *
    simp [Metric.name, Metric.family, Metric.label, Metric.labelPairs, List.lookup, *]
  · generalize New a t l = e at *
    simp [Metric.name, Metric.family, Metric.label, Metric.labelPairs, List.lookup, *]

/-- C11, as stated, fails: for the document `"dyn_memory": 9007199254740993, "rack": "r1"`
the sample named `dynomite_dyn_memory` reads the field `dyn_memory` and has the value
`9007199254740992`, which is not the field: the code sends `float64` of the field, and
`2^53 + 1` is not a `float64`. -/
theorem collect_sample_value_is_rounded_field :
    ∃ r, Exporter.Collect (servingUpstream bigMemoryDoc)
        (Run.start (New defaultAddress defaultTimeout stderrLogger)) = .ok r ∧
      (specKey "dyn_memory" none).bind bigMemoryDoc.intField = some 9007199254740993 ∧
      (samplesNamed "dynomite_dyn_memory" r.ch).map
        (fun m => (m.family, m.label "type", m.value)) =
          [("dyn_memory", none, Float64.ofInt 9007199254740992)] ∧
      Float64.ofInt 9007199254740992 ≠ Float64.ofInt 9007199254740993 := by
  obtain ⟨
    h_up, h_uptime, h_latency, h_payload_size, h_cross_region_rtt, h_cross_zone_latency,
    h_server_latency, h_server_queue_wait, h_cross_region_queue_wait, h_client_out_queue,
    h_server_in_queue, h_server_out_queue, h_dnode_client_out_queue, h_peer_in_queue,
    h_peer_out_queue, h_remote_peer_in_queue, h_remote_peer_out_queue, h_alloc_msgs,
    h_free_msgs, h_alloc_mbufs, h_free_mbufs, h_dyn_memory ⟩ :=
    New_descs defaultAddress defaultTimeout stderrLogger
  have hv := float64_rounds_at_two_pow_53_add_one
  have hf := family_of_name.2.2.2.2.2.2.2.2.2.2.2.2.2.2.2.2.2.2.2.2
  refine ⟨_, Collect_decoded (servingUpstream bigMemoryDoc) defaultAddress defaultTimeout
    stderrLogger bigMemoryDoc rfl, by decide, ?_, by decide⟩
  generalize New defaultAddress defaultTimeout stderrLogger = e at *
  simp [samplesNamed, Metric.name, Metric.family, Metric.label, Metric.labelPairs, List.lookup,
    bigMemoryDoc, *]

/-- C11, amended. Whenever `GetMetrics` returns a document and no error, every sample that
`Collect` sends, `dynomite_up` apart, carries the field `rack` of the document as the
value of its label `rack`, and reads the integer field `v` whose JSON key the
specification assigns to the family and the type of the sample: its value is
`float64(v)`, which is `v` itself whenever the magnitude of `v` is at most `2^53`. The
keys read by the 34 samples are pairwise distinct, so no sample reads the field of
another. -/
theorem collect_samples_read_their_fields (world : Upstream) (a : String) (t : Duration)
    (l : Logger) (stats : DynomiteMetrics) (h : GetMetrics world a = (stats, none)) :
    ∃ r, Exporter.Collect world (Run.start (New a t l)) = .ok r ∧
      (∀ m ∈ r.ch, m.name ≠ "dynomite_up" →
        m.label "rack" = stats.stringField "rack" ∧
        ((specKey m.family (m.label "type")).bind stats.intField).map float64 =
          some m.value ∧
        ∃ v, (specKey m.family (m.label "type")).bind stats.intField = some v ∧
          m.value = float64 v ∧ (v.natAbs ≤ 2 ^ 53 → m.value = Float64.ofInt v)) ∧
      ((r.ch.filter (fun m => m.name != "dynomite_up")).map
        (fun m => specKey m.family (m.label "type"))).Nodup := by
  obtain ⟨r, hc, hfields, hkeys⟩ := Collect_reads_fields world a t l stats h
  refine ⟨r, hc, fun m hm hne => ?_, hkeys⟩
  obtain ⟨hrack, hval⟩ := hfields m hm hne
  refine ⟨hrack, hval, ?_⟩
  obtain ⟨v, hv, hmv⟩ := Option.map_eq_some'.mp hval
  exact ⟨v, hv, hmv.symm, fun hb => by rw [← hmv]; exact float64_exact v hb⟩

/-- C11, amended, at a concrete input: the document `"latency_99th": 42,
"latency_mean": 7, "rack": "r1"`. -/
theorem collect_samples_read_their_fields_witness :
    GetMetrics (servingUpstream latencyDoc) defaultAddress = (latencyDoc, none) ∧
    ∃ r, Exporter.Collect (servingUpstream latencyDoc)
        (Run.start (New defaultAddress defaultTimeout stderrLogger)) = .ok r ∧
      (∀ m ∈ r.ch, m.name ≠ "dynomite_up" →
        m.label "rack" = latencyDoc.stringField "rack" ∧
        ((specKey m.family (m.label "type")).bind latencyDoc.intField).map float64 =
          some m.value ∧
        ∃ v, (specKey m.family (m.label "type")).bind latencyDoc.intField = some v ∧
          m.value = float64 v ∧ (v.natAbs ≤ 2 ^ 53 → m.value = Float64.ofInt v)) ∧
      ((r.ch.filter (fun m => m.name != "dynomite_up")).map
        (fun m => specKey m.family (m.label "type"))).Nodup :=
  ⟨rfl, collect_samples_read_their_fields (servingUpstream latencyDoc) defaultAddress
    defaultTimeout stderrLogger latencyDoc rfl⟩

/-! ## C12: no duplicate series in one scrape -/

/-- C12. Whenever `GetMetrics` returns a document and no error, whatever its rack (the
empty string included), no two of the samples that `Collect` sends have both the same
metric name and the same list of label values. -/
theorem collect_sends_no_duplicate_series (world : Upstream) (a : String) (t : Duration)
    (l : Logger) (stats : DynomiteMetrics) (h : GetMetrics world a = (stats, none)) :
    ∃ r, Exporter.Collect world (Run.start (New a t l)) = .ok r ∧
      (r.ch.map (fun m => (m.name, m.labelValues))).Nodup := by
  obtain ⟨
    h_up, h_uptime, h_latency, h_payload_size, h_cross_region_rtt, h_cross_zone_latency,
    h_server_latency, h_server_queue_wait, h_cross_region_queue_wait, h_client_out_queue,
    h_server_in_queue, h_server_out_queue, h_dnode_client_out_queue, h_peer_in_queue,
    h_peer_out_queue, h_remote_peer_in_queue, h_remote_peer_out_queue, h_alloc_msgs,
    h_free_msgs, h_alloc_mbufs, h_free_mbufs, h_dyn_memory ⟩ :=
    New_descs a t l
  refine ⟨_, Collect_decoded world a t l stats h, ?_⟩
  generalize New a t l = e at *
  simp [Metric.name, *]

/-- C12 at a concrete input: a document whose rack is the empty string. -/
theorem collect_sends_no_duplicate_series_witness :
    GetMetrics (servingUpstream {}) defaultAddress = ({}, none) ∧
    ∃ r, Exporter.Collect (servingUpstream {})
        (Run.start (New defaultAddress defaultTimeout stderrLogger)) = .ok r ∧
      (r.ch.map (fun m => (m.name, m.labelValues))).Nodup :=
  ⟨rfl, collect_sends_no_duplicate_series (servingUpstream {}) defaultAddress defaultTimeout
    stderrLogger {} rfl⟩

end DynomiteExporter
